import Mathlib

/-!
# TransitoCity traffic-simulation core: shallow embedding and verification

This file embeds the traffic-light controller (`src/traffic/traffic-light-system.ts`)
and the vehicle controller (`src/vehicles/vehicle-controller.ts`) of the TransitoCity
repository as executable Lean definitions, and proves (or refutes) the spec's claims
about them.  Numeric values (speeds, durations, tile progress) are modelled over `ℚ`;
the TypeScript sources compute over IEEE doubles, but every constant involved
(0.8, 0.2, 0.5, 0.9, 0.8, 0.02, 10, 3, …) and every claim is about exact-arithmetic
behaviour, so the rational model is the faithful idealization.

Rendering-only state (Three.js meshes, materials, world positions, brake-light
decorations) does not feed back into the logical state and is omitted.
`Math.random()*n |> floor` is modelled by an externally supplied natural number
taken modulo `n`, so that every possible random index (and only those) occurs;
`Date.now()` is modelled by an externally supplied time stamp `now : ℚ` (seconds).
-/

namespace TransitoCity

/-- `TrafficLightState` enum from `traffic-light-system.ts` (RED, YELLOW, GREEN). -/
inductive TrafficLightState where
  | red
  | yellow
  | green
deriving DecidableEq, Repr

/-- Traffic axis (`currentAxis: 'NS' | 'EW'` in `IntersectionLights`). -/
inductive Axis where
  | ns
  | ew
deriving DecidableEq, Repr

/-- `VehicleDirection` enum from `vehicle-controller.ts` (NORTH=0, EAST=1, SOUTH=2, WEST=3). -/
inductive VehicleDirection where
  | north
  | east
  | south
  | west
deriving DecidableEq, Repr

/-- `RoadTileType` enum from `road-system.ts` (EMPTY=0, STRAIGHT=1, INTERSECTION=2). -/
inductive RoadTileType where
  | empty
  | straight
  | intersection
deriving DecidableEq, Repr

/-- `RoadOrientation` enum from `road-system.ts` (HORIZONTAL=0, VERTICAL=1). -/
inductive RoadOrientation where
  | horizontal
  | vertical
deriving DecidableEq, Repr

/-- Logical part of a `RoadTile` (`type` and `orientation`; the `position` and
`model` fields are rendering-only and never influence control flow). -/
structure RoadTile where
  type : RoadTileType
  orientation : RoadOrientation
deriving DecidableEq, Repr

/-- The road map: `roadMap: RoadTile[][]`, indexed `roadMap[y][x]`. -/
def RoadMap := List (List RoadTile)

/-- `RoadSystem.getTileInfo(x, y)`: bounds-checked lookup returning `null`
(`none`) outside the grid. -/
def getTileInfo (m : RoadMap) (x y : Int) : Option RoadTile :=
  if y < 0 then none
  else match List.get? (α := List RoadTile) m y.toNat with
    | none => none
    | some row => if x < 0 then none else List.get? row x.toNat

-- Numeric constants of `GameConfig` used by the traffic core, as exact rationals.
namespace GameConfig

/-- `GameConfig.VEHICLE_SPEED = 0.8`. -/
def VEHICLE_SPEED : ℚ := 4/5

/-- `GameConfig.VEHICLE_ACCELERATION = 0.2`. -/
def VEHICLE_ACCELERATION : ℚ := 1/5

/-- `GameConfig.VEHICLE_DECELERATION = 0.5`. -/
def VEHICLE_DECELERATION : ℚ := 1/2

/-- `GameConfig.VEHICLE_STOP_POINT = 0.9`. -/
def VEHICLE_STOP_POINT : ℚ := 9/10

end GameConfig

/-- One entry of `TrafficLightSystem.intersections` (`IntersectionLights`):
grid coordinates, the four lights' states, the phase timer, the active axis and
the active axis' state.  Each `TrafficLight` object is reduced to its `state`
field (the only logically observable part). -/
structure IntersectionLights where
  x : Int
  y : Int
  northState : TrafficLightState
  eastState : TrafficLightState
  southState : TrafficLightState
  westState : TrafficLightState
  timeSinceLastChange : ℚ
  currentAxis : Axis
  currentState : TrafficLightState
deriving DecidableEq, Repr

namespace TrafficLightSystem

/-- `TrafficLightSystem.createIntersectionLights(x, y)`: the record pushed onto
`intersections` — north/south GREEN, east/west RED, timer 0, axis NS, state GREEN. -/
def createIntersectionLights (x y : Int) : IntersectionLights :=
  { x := x, y := y
    northState := .green, southState := .green
    eastState := .red, westState := .red
    timeSinceLastChange := 0
    currentAxis := .ns
    currentState := .green }

/-- Loop body of `TrafficLightSystem.update(deltaTime)` for one intersection:
accumulate the timer, then switch GREEN→YELLOW after 10 s and YELLOW→(GREEN on
the other axis) after 3 s, resetting the timer to 0 on every transition. -/
def updateIntersection (deltaTime : ℚ) (i : IntersectionLights) : IntersectionLights :=
  let i := { i with timeSinceLastChange := i.timeSinceLastChange + deltaTime }
  match i.currentAxis with
  | .ns =>
    if i.currentState = .green ∧ i.timeSinceLastChange ≥ 10 then
      { i with northState := .yellow, southState := .yellow
               currentState := .yellow, timeSinceLastChange := 0 }
    else if i.currentState = .yellow ∧ i.timeSinceLastChange ≥ 3 then
      { i with northState := .red, southState := .red
               eastState := .green, westState := .green
               currentAxis := .ew, currentState := .green, timeSinceLastChange := 0 }
    else i
  | .ew =>
    if i.currentState = .green ∧ i.timeSinceLastChange ≥ 10 then
      { i with eastState := .yellow, westState := .yellow
               currentState := .yellow, timeSinceLastChange := 0 }
    else if i.currentState = .yellow ∧ i.timeSinceLastChange ≥ 3 then
      { i with eastState := .red, westState := .red
               northState := .green, southState := .green
               currentAxis := .ns, currentState := .green, timeSinceLastChange := 0 }
    else i

/-- `TrafficLightSystem.update(deltaTime)`: update every managed intersection. -/
def update (deltaTime : ℚ) (sys : List IntersectionLights) : List IntersectionLights :=
  sys.map (updateIntersection deltaTime)

/-- `TrafficLightSystem.canCrossIntersection(tileX, tileY, direction)`:
fail-open when no intersection is registered at the coordinates; otherwise
N/S query the north light and E/W query the east light, permitting GREEN and
YELLOW. -/
def canCrossIntersection (sys : List IntersectionLights) (tileX tileY : Int)
    (direction : VehicleDirection) : Bool :=
  match sys.find? (fun i => i.x = tileX ∧ i.y = tileY) with
  | none => true
  | some i =>
    if direction = .north ∨ direction = .south then
      i.northState = .green ∨ i.northState = .yellow
    else
      i.eastState = .green ∨ i.eastState = .yellow

end TrafficLightSystem

/-- The axis of a direction: NORTH/SOUTH ⇒ NS, EAST/WEST ⇒ EW. -/
def VehicleDirection.axis : VehicleDirection → Axis
  | .north => .ns
  | .south => .ns
  | .east => .ew
  | .west => .ew

/-- The other axis. -/
def Axis.flip : Axis → Axis
  | .ns => .ew
  | .ew => .ns

/-- An `IntersectionLights` record whose four light states agree with
(`axis`, `phase`): the active axis' two lights show `phase`, the inactive axis'
two lights are RED. -/
def syncedLights (x y : Int) (ax : Axis) (phase : TrafficLightState) (t : ℚ) :
    IntersectionLights :=
  match ax with
  | .ns =>
    { x := x, y := y
      northState := phase, southState := phase
      eastState := .red, westState := .red
      timeSinceLastChange := t, currentAxis := .ns, currentState := phase }
  | .ew =>
    { x := x, y := y
      northState := .red, southState := .red
      eastState := phase, westState := phase
      timeSinceLastChange := t, currentAxis := .ew, currentState := phase }

/-- Well-formedness of one intersection record: it is a synced record in phase
GREEN or YELLOW with a non-negative timer. -/
def IntersectionLights.Synced (i : IntersectionLights) : Prop :=
  ∃ x y ax phase t,
    (phase = TrafficLightState.green ∨ phase = TrafficLightState.yellow) ∧
    0 ≤ t ∧ i = syncedLights x y ax phase t

/-- Iterated `TrafficLightSystem.update` restricted to a single intersection:
one fold of the per-intersection loop body over a list of frame deltas. -/
def TrafficLightSystem.advance (ds : List ℚ) (i : IntersectionLights) : IntersectionLights :=
  ds.foldl (fun s d => TrafficLightSystem.updateIntersection d s) i

/-- Reachable states of the `TrafficLightSystem`: any collection of freshly
created intersections, closed under `update` with a non-negative frame delta. -/
inductive ReachableTLS : List IntersectionLights → Prop where
  | init (coords : List (Int × Int)) :
      ReachableTLS (coords.map fun c => TrafficLightSystem.createIntersectionLights c.1 c.2)
  | step (sys : List IntersectionLights) (dt : ℚ) (hdt : 0 ≤ dt) :
      ReachableTLS sys → ReachableTLS (TrafficLightSystem.update dt sys)

/-- `VehicleController` logical state: grid cell, heading, in-tile progress,
the three kinematic flags, the recorded pending intersection, the current speed,
and the stuck-detection bookkeeping (`lastMoveTime`/`lastProgress` are created
lazily in the source, hence `Option`). -/
structure VehicleState where
  currentTileX : Int
  currentTileY : Int
  currentDirection : VehicleDirection
  tileProgress : ℚ
  isStopped : Bool
  isDecelerating : Bool
  isAccelerating : Bool
  nextIntersectionTileX : Int
  nextIntersectionTileY : Int
  currentSpeed : ℚ
  lastMoveTime : Option ℚ
  lastProgress : Option ℚ
deriving DecidableEq, Repr

namespace VehicleController

/-- `VehicleController` constructor: place the vehicle at `(startX, startY)`
with the given heading; all kinematic fields start at their field initializers
(`tileProgress = 0`, all flags false, `currentSpeed = 0`, pending = (-1,-1)). -/
def construct (startX startY : Int) (direction : VehicleDirection) : VehicleState :=
  { currentTileX := startX, currentTileY := startY
    currentDirection := direction
    tileProgress := 0
    isStopped := false, isDecelerating := false, isAccelerating := false
    nextIntersectionTileX := -1, nextIntersectionTileY := -1
    currentSpeed := 0
    lastMoveTime := none, lastProgress := none }

/-- `VehicleController.getOppositeDirection()`. -/
def getOppositeDirection : VehicleDirection → VehicleDirection
  | .north => .south
  | .south => .north
  | .east => .west
  | .west => .east

/-- `VehicleController.getOffsetXForDirection(direction)`. -/
def getOffsetXForDirection : VehicleDirection → Int
  | .east => 1
  | .west => -1
  | _ => 0

/-- `VehicleController.getOffsetYForDirection(direction)`. -/
def getOffsetYForDirection : VehicleDirection → Int
  | .north => -1
  | .south => 1
  | _ => 0

/-- `VehicleController.isDirectionCompatibleWithRoad(direction, roadTile)`:
N/S need VERTICAL orientation, E/W need HORIZONTAL. -/
def isDirectionCompatibleWithRoad (direction : VehicleDirection) (roadTile : RoadTile) : Bool :=
  ((direction = .north ∨ direction = .south) ∧ roadTile.orientation = .vertical) ∨
  ((direction = .east ∨ direction = .west) ∧ roadTile.orientation = .horizontal)

/-- The JS truthiness test `tile && tile.type !== RoadTileType.EMPTY` used for
neighbor checks. -/
def tileNavigable : Option RoadTile → Bool
  | some t => decide (t.type ≠ RoadTileType.empty)
  | none => false

/-- The JS truthiness test `tile && tile.type === RoadTileType.INTERSECTION`. -/
def tileIsIntersection : Option RoadTile → Bool
  | some t => decide (t.type = RoadTileType.intersection)
  | none => false

/-- The loop of `decideDirectionAtIntersection` collecting `possibleDirections`:
directions 0..3 except the opposite of the current heading, whose neighbor tile
exists, is non-EMPTY, and — when STRAIGHT — has a compatible orientation. -/
def possibleDirections (m : RoadMap) (s : VehicleState) : List VehicleDirection :=
  [VehicleDirection.north, .east, .south, .west].filter fun dir =>
    decide (dir ≠ getOppositeDirection s.currentDirection) &&
    match getTileInfo m (s.currentTileX + getOffsetXForDirection dir)
        (s.currentTileY + getOffsetYForDirection dir) with
    | none => false
    | some nextTile =>
      decide (nextTile.type ≠ RoadTileType.empty) &&
      (if nextTile.type = RoadTileType.straight then
        isDirectionCompatibleWithRoad dir nextTile
      else true)

/-- `VehicleController.decideDirectionAtIntersection()`: pick a random member of
`possibleDirections` (the random index `Math.floor(Math.random()*len)` is
modelled as `rnd % len`), or the opposite direction if the list is empty. -/
def decideDirectionAtIntersection (m : RoadMap) (rnd : Nat) (s : VehicleState) : VehicleState :=
  let possible := possibleDirections m s
  if possible.isEmpty then
    { s with currentDirection := getOppositeDirection s.currentDirection }
  else
    { s with currentDirection := possible.getD (rnd % possible.length) VehicleDirection.north }

/-- `VehicleController.adjustDirectionForStraightRoad(roadTile)`: keep an
axis-compatible heading; otherwise pick the axis direction whose neighbor is
non-EMPTY (north/east preferred), falling back to reversal. -/
def adjustDirectionForStraightRoad (m : RoadMap) (roadTile : RoadTile)
    (s : VehicleState) : VehicleState :=
  match roadTile.orientation with
  | .vertical =>
    if s.currentDirection = .north ∨ s.currentDirection = .south then s
    else
      let northTile := getTileInfo m s.currentTileX (s.currentTileY - 1)
      let southTile := getTileInfo m s.currentTileX (s.currentTileY + 1)
      if tileNavigable northTile then
        { s with currentDirection := .north }
      else if tileNavigable southTile then
        { s with currentDirection := .south }
      else
        { s with currentDirection := getOppositeDirection s.currentDirection }
  | .horizontal =>
    if s.currentDirection = .east ∨ s.currentDirection = .west then s
    else
      let eastTile := getTileInfo m (s.currentTileX + 1) s.currentTileY
      let westTile := getTileInfo m (s.currentTileX - 1) s.currentTileY
      if tileNavigable eastTile then
        { s with currentDirection := .east }
      else if tileNavigable westTile then
        { s with currentDirection := .west }
      else
        { s with currentDirection := getOppositeDirection s.currentDirection }

/-- `VehicleController.moveToNextTile()`: at a tile boundary, stop short of a
red intersection ahead; otherwise advance (when the lookup succeeds) and decide
the new heading, or reverse when the lookup fails. -/
def moveToNextTile (m : RoadMap) (tls : Option (List IntersectionLights)) (rnd : Nat)
    (s : VehicleState) : VehicleState :=
  let nextTileX := s.currentTileX + getOffsetXForDirection s.currentDirection
  let nextTileY := s.currentTileY + getOffsetYForDirection s.currentDirection
  let nextTile := getTileInfo m nextTileX nextTileY
  let redBlock : Bool :=
    match nextTile, tls with
    | some nt, some sys =>
      decide (nt.type = RoadTileType.intersection) &&
      !(TrafficLightSystem.canCrossIntersection sys nextTileX nextTileY s.currentDirection)
    | _, _ => false
  if redBlock then
    { s with tileProgress := GameConfig.VEHICLE_STOP_POINT
             isStopped := true, isDecelerating := false
             nextIntersectionTileX := nextTileX, nextIntersectionTileY := nextTileY }
  else
    let s := { s with tileProgress := 0 }
    match nextTile with
    | some nt =>
      let s := { s with currentTileX := nextTileX, currentTileY := nextTileY }
      if nt.type = RoadTileType.intersection then
        decideDirectionAtIntersection m rnd s
      else if nt.type = RoadTileType.straight then
        adjustDirectionForStraightRoad m nt s
      else s
    | none => { s with currentDirection := getOppositeDirection s.currentDirection }

/-- `VehicleController.checkForUpcomingRedLight()`: when cruising (no flag set)
outside an intersection, start decelerating toward a red intersection one tile
ahead, snapping straight to the stop point when `tileProgress > 0.8`. -/
def checkForUpcomingRedLight (m : RoadMap) (tls : Option (List IntersectionLights))
    (s : VehicleState) : VehicleState :=
  match tls with
  | none => s
  | some sys =>
    if s.isDecelerating ∨ s.isStopped ∨ s.isAccelerating then s
    else
      let currentTile := getTileInfo m s.currentTileX s.currentTileY
      if tileIsIntersection currentTile then s
      else
        let nextTileX := s.currentTileX + getOffsetXForDirection s.currentDirection
        let nextTileY := s.currentTileY + getOffsetYForDirection s.currentDirection
        match getTileInfo m nextTileX nextTileY with
        | some nt =>
          if nt.type = RoadTileType.intersection ∧
              TrafficLightSystem.canCrossIntersection sys nextTileX nextTileY
                s.currentDirection = false then
            let s := { s with isDecelerating := true, isAccelerating := false
                              nextIntersectionTileX := nextTileX
                              nextIntersectionTileY := nextTileY }
            if s.tileProgress > 4/5 then
              { s with tileProgress := GameConfig.VEHICLE_STOP_POINT
                       isStopped := true, isDecelerating := false
                       isAccelerating := false, currentSpeed := 0 }
            else s
          else s
        | none => s

/-- `VehicleController.resetVehicle(newX, newY, newDirection)`: relocate,
restart at low speed in acceleration mode, re-derive a heading on straight
roads, reverse if the ahead tile is absent/EMPTY, refresh stuck bookkeeping. -/
def resetVehicle (m : RoadMap) (now : ℚ) (newX newY : Int)
    (newDirection : VehicleDirection) (s : VehicleState) : VehicleState :=
  let s := { s with currentTileX := newX, currentTileY := newY
                    currentDirection := newDirection
                    tileProgress := 0, isStopped := false, isDecelerating := false
                    currentSpeed := 1/10, isAccelerating := true
                    nextIntersectionTileX := -1, nextIntersectionTileY := -1 }
  let s :=
    match getTileInfo m newX newY with
    | some ct =>
      if ct.type = RoadTileType.straight then adjustDirectionForStraightRoad m ct s else s
    | none => s
  let nextX := newX + getOffsetXForDirection s.currentDirection
  let nextY := newY + getOffsetYForDirection s.currentDirection
  let s :=
    if tileNavigable (getTileInfo m nextX nextY) then s
    else { s with currentDirection := getOppositeDirection s.currentDirection }
  { s with lastMoveTime := some now, lastProgress := some 0 }

/-- The neighbor scan inside `checkIfStuck`: the first offset `(dx, dy)` in
row-major order (skipping `(0,0)`) whose tile is STRAIGHT. -/
def findNearbyStraight (m : RoadMap) (x y : Int) : Option (Int × Int) :=
  List.find? (fun p : Int × Int =>
      match getTileInfo m (x + p.1) (y + p.2) with
      | some t => decide (t.type = RoadTileType.straight)
      | none => false)
    [(-1,-1), (0,-1), (1,-1), (-1,0), (1,0), (-1,1), (0,1), (1,1)]

/-- `VehicleController.checkIfStuck(timeout)`: deadlock-recovery valve.
`Date.now()` is modelled by the supplied `now` (in seconds, so the source's
division by 1000 is already applied). -/
def checkIfStuck (m : RoadMap) (now : ℚ) (timeout : ℚ) (s : VehicleState) : VehicleState :=
  match s.lastMoveTime with
  | none => { s with lastMoveTime := some now }
  | some t0 =>
    let timeSinceLastMove := now - t0
    let currentTile := getTileInfo m s.currentTileX s.currentTileY
    let stuck : Bool :=
      decide (timeSinceLastMove > timeout) && tileIsIntersection currentTile
    if stuck then
      match findNearbyStraight m s.currentTileX s.currentTileY with
      | some d =>
        resetVehicle m now (s.currentTileX + d.1) (s.currentTileY + d.2) s.currentDirection s
      | none =>
        let s := { s with isStopped := false, isDecelerating := false, tileProgress := 1/2 }
        if ¬s.isStopped ∧ some s.tileProgress ≠ s.lastProgress then
          { s with lastMoveTime := some now, lastProgress := some s.tileProgress }
        else s
    else
      if ¬s.isStopped ∧ some s.tileProgress ≠ s.lastProgress then
        { s with lastMoveTime := some now, lastProgress := some s.tileProgress }
      else s

/-- The tail of the normal (non-decelerating) path of `update`: integrate the
movement, run the tile transition when the boundary is crossed, then the stuck
check. -/
def normalMove (m : RoadMap) (tls : Option (List IntersectionLights)) (rnd : Nat)
    (now : ℚ) (deltaTime : ℚ) (s : VehicleState) : VehicleState :=
  let s := { s with tileProgress := s.tileProgress + s.currentSpeed * deltaTime }
  let s := if s.tileProgress ≥ 1 then moveToNextTile m tls rnd s else s
  checkIfStuck m now 10 s

/-- The acceleration block of `VehicleController.update` (step 2): while
accelerating, raise `currentSpeed` by `VEHICLE_ACCELERATION * Δt`, capping at
`VEHICLE_SPEED` and leaving acceleration mode at the cap. -/
def accelerationStep (s : VehicleState) (deltaTime : ℚ) : VehicleState :=
  if s.isAccelerating then
    let v := s.currentSpeed + GameConfig.VEHICLE_ACCELERATION * deltaTime
    if v ≥ GameConfig.VEHICLE_SPEED then
      { s with currentSpeed := GameConfig.VEHICLE_SPEED, isAccelerating := false }
    else { s with currentSpeed := v }
  else s

/-- The speed the acceleration block leaves in place (used to phrase "the
vehicle crosses the tile boundary this tick"). -/
def speedAfterAcceleration (s : VehicleState) (deltaTime : ℚ) : ℚ :=
  (accelerationStep s deltaTime).currentSpeed

/-- `VehicleController.update(deltaTime)` after the stopped check: acceleration
integration, the deceleration branch (which always returns), or the normal
path (upcoming-signal check, movement, tile transition, stuck check). -/
def updateMain (m : RoadMap) (tls : Option (List IntersectionLights)) (rnd : Nat)
    (now : ℚ) (deltaTime : ℚ) (s : VehicleState) : VehicleState :=
  let s := accelerationStep s deltaTime
  if s.isDecelerating then
    let progress := s.tileProgress
    let stopPoint := GameConfig.VEHICLE_STOP_POINT
    if progress ≥ stopPoint then
      { s with isStopped := true, isDecelerating := false
               currentSpeed := 0, tileProgress := stopPoint }
    else
      let distanceToStop := stopPoint - progress
      let desacelerationFactor := max 1 (3 - distanceToStop * 10)
      let adjustedDeceleration :=
        GameConfig.VEHICLE_DECELERATION * desacelerationFactor * deltaTime
      let v := max 0 (s.currentSpeed - adjustedDeceleration)
      if v < 1/50 then
        let s := { s with currentSpeed := 0, isStopped := true, isDecelerating := false }
        if distanceToStop < 1/20 then { s with tileProgress := stopPoint } else s
      else
        let s := { s with currentSpeed := v }
        let p := s.tileProgress + v * deltaTime
        if p ≥ stopPoint then
          { s with tileProgress := stopPoint, isStopped := true
                   isDecelerating := false, currentSpeed := 0 }
        else { s with tileProgress := p }
  else
    let s := checkForUpcomingRedLight m tls s
    let s := { s with tileProgress := s.tileProgress + s.currentSpeed * deltaTime }
    let s := if s.tileProgress ≥ 1 then moveToNextTile m tls rnd s else s
    checkIfStuck m now 10 s

/-- `VehicleController.update(deltaTime)`: stopped check first (resume into
acceleration when the pending intersection now permits the heading, else pin
the speed at 0 and return), then `updateMain`. -/
def update (m : RoadMap) (tls : Option (List IntersectionLights)) (rnd : Nat)
    (now : ℚ) (deltaTime : ℚ) (s : VehicleState) : VehicleState :=
  match tls with
  | some sys =>
    if s.isStopped then
      if TrafficLightSystem.canCrossIntersection sys s.nextIntersectionTileX
          s.nextIntersectionTileY s.currentDirection then
        updateMain m tls rnd now deltaTime
          { s with isStopped := false, isDecelerating := false
                   isAccelerating := true, currentSpeed := 0 }
      else
        { s with currentSpeed := 0 }
    else updateMain m tls rnd now deltaTime s
  | none => updateMain m tls rnd now deltaTime s

end VehicleController

/-- Equality of every vehicle field except the heading (used for the
direction-decision helpers, which only rewrite `currentDirection`). -/
def VehicleState.SameButDir (s t : VehicleState) : Prop :=
  s.currentTileX = t.currentTileX ∧ s.currentTileY = t.currentTileY ∧
  s.tileProgress = t.tileProgress ∧
  s.isStopped = t.isStopped ∧ s.isDecelerating = t.isDecelerating ∧
  s.isAccelerating = t.isAccelerating ∧
  s.nextIntersectionTileX = t.nextIntersectionTileX ∧
  s.nextIntersectionTileY = t.nextIntersectionTileY ∧
  s.currentSpeed = t.currentSpeed ∧
  s.lastMoveTime = t.lastMoveTime ∧ s.lastProgress = t.lastProgress

/-- Equality of the simulation-relevant vehicle fields (everything except the
`lastMoveTime`/`lastProgress` stuck-detection bookkeeping). -/
def VehicleState.SameCore (s t : VehicleState) : Prop :=
  s.currentTileX = t.currentTileX ∧ s.currentTileY = t.currentTileY ∧
  s.currentDirection = t.currentDirection ∧ s.tileProgress = t.tileProgress ∧
  s.isStopped = t.isStopped ∧ s.isDecelerating = t.isDecelerating ∧
  s.isAccelerating = t.isAccelerating ∧
  s.nextIntersectionTileX = t.nextIntersectionTileX ∧
  s.nextIntersectionTileY = t.nextIntersectionTileY ∧
  s.currentSpeed = t.currentSpeed

-- Concrete fixtures used by the closed witness/counterexample theorems.

/-- A 1×2 map: a horizontal straight road at (0,0) and an intersection at (1,0). -/
def crossMap : RoadMap := [[⟨.straight, .horizontal⟩, ⟨.intersection, .horizontal⟩]]

/-- One managed intersection at (1,0) in GREEN(NS) — an EAST query is denied. -/
def sysNS : List IntersectionLights := [syncedLights 1 0 .ns .green 0]

/-- One managed intersection at (1,0) in GREEN(EW) — an EAST query is granted. -/
def sysEW : List IntersectionLights := [syncedLights 1 0 .ew .green 0]

/-- A cruising vehicle on (0,0) heading EAST, mid-tile. -/
def cruiseState : VehicleState :=
  { VehicleController.construct 0 0 .east with tileProgress := 1/2, currentSpeed := 4/5 }

/-- A cruising vehicle on (0,0) heading EAST about to cross the tile boundary. -/
def boundaryState : VehicleState :=
  { VehicleController.construct 0 0 .east with tileProgress := 9/10, currentSpeed := 4/5 }

/-- A vehicle stopped at the stop point before the intersection at (1,0). -/
def stoppedState : VehicleState :=
  { VehicleController.construct 0 0 .east with
      tileProgress := 9/10, isStopped := true
      nextIntersectionTileX := 1, nextIntersectionTileY := 0 }

/-- A decelerating vehicle at `tileProgress = 0.85`, speed `0.8`. -/
def decelState : VehicleState :=
  { VehicleController.construct 0 0 .east with
      tileProgress := 17/20, isDecelerating := true, currentSpeed := 4/5 }

/-- A 1-column map with an EMPTY tile at (0,0) above a vertical road at (0,1). -/
def deadEndMap : RoadMap := [[⟨.empty, .horizontal⟩], [⟨.straight, .vertical⟩]]

/-- A vehicle on (0,1) heading NORTH toward the EMPTY tile, about to cross. -/
def deadEndState : VehicleState :=
  { VehicleController.construct 0 1 .north with tileProgress := 1/2, currentSpeed := 4/5 }

/-- A 3×3 map: intersection at (1,1), EMPTY to its north, straight roads east,
west (horizontal) and south (vertical). -/
def turnMap : RoadMap :=
  [[⟨.empty, .horizontal⟩, ⟨.empty, .horizontal⟩, ⟨.empty, .horizontal⟩],
   [⟨.straight, .horizontal⟩, ⟨.intersection, .horizontal⟩, ⟨.straight, .horizontal⟩],
   [⟨.empty, .horizontal⟩, ⟨.straight, .vertical⟩, ⟨.empty, .horizontal⟩]]

/-- A vehicle that has just entered the intersection (1,1) heading NORTH. -/
def turnState : VehicleState :=
  { VehicleController.construct 1 1 .north with currentSpeed := 4/5 }

/-- Kinematic invariant of a vehicle: `tileProgress ∈ [0,1]` and a
non-negative speed. -/
def VehicleState.Inv (s : VehicleState) : Prop :=
  0 ≤ s.tileProgress ∧ s.tileProgress ≤ 1 ∧ 0 ≤ s.currentSpeed

/-- Vehicle states reachable from construction through `update` calls with
non-negative frame deltas, against arbitrary maps, traffic-light systems,
random draws and clock readings. -/
inductive ReachableVehicle : VehicleState → Prop where
  | init (startX startY : Int) (direction : VehicleDirection) :
      ReachableVehicle (VehicleController.construct startX startY direction)
  | step (s : VehicleState) (m : RoadMap) (tls : Option (List IntersectionLights))
      (rnd : Nat) (now deltaTime : ℚ) (hdt : 0 ≤ deltaTime) :
      ReachableVehicle s →
      ReachableVehicle (VehicleController.update m tls rnd now deltaTime s)

/-! ## Traffic-light lemmas -/

namespace TrafficLightSystem

lemma createIntersectionLights_eq_synced (x y : Int) :
    createIntersectionLights x y = syncedLights x y .ns .green 0 := rfl

lemma updateIntersection_green (x y : Int) (ax : Axis) (t dt : ℚ) :
    updateIntersection dt (syncedLights x y ax .green t) =
      if 10 ≤ t + dt then syncedLights x y ax .yellow 0
      else syncedLights x y ax .green (t + dt) := by
  cases ax <;>
    simp only [updateIntersection, syncedLights] <;>
    split_ifs with h₁ h₂ <;>
    simp_all

lemma updateIntersection_yellow (x y : Int) (ax : Axis) (t dt : ℚ) :
    updateIntersection dt (syncedLights x y ax .yellow t) =
      if 3 ≤ t + dt then syncedLights x y ax.flip .green 0
      else syncedLights x y ax .yellow (t + dt) := by
  cases ax <;>
    simp only [updateIntersection, syncedLights, Axis.flip] <;>
    split_ifs with h₁ h₂ <;>
    simp_all

lemma synced_updateIntersection {i : IntersectionLights} (h : i.Synced)
    (dt : ℚ) (hdt : 0 ≤ dt) : (updateIntersection dt i).Synced := by
  obtain ⟨x, y, ax, phase, t, hph, ht, rfl⟩ := h
  rcases hph with rfl | rfl
  · rw [updateIntersection_green]
    split_ifs
    · exact ⟨x, y, ax, _, 0, Or.inr rfl, le_refl 0, rfl⟩
    · exact ⟨x, y, ax, _, t + dt, Or.inl rfl, add_nonneg ht hdt, rfl⟩
  · rw [updateIntersection_yellow]
    split_ifs
    · exact ⟨x, y, ax.flip, _, 0, Or.inl rfl, le_refl 0, rfl⟩
    · exact ⟨x, y, ax, _, t + dt, Or.inr rfl, add_nonneg ht hdt, rfl⟩

lemma reachable_synced {sys : List IntersectionLights} (h : ReachableTLS sys) :
    ∀ i ∈ sys, i.Synced := by
  induction h with
  | init coords =>
    intro i hi
    rw [List.mem_map] at hi
    obtain ⟨c, _, rfl⟩ := hi
    exact ⟨c.1, c.2, .ns, .green, 0, Or.inl rfl, le_refl 0,
      createIntersectionLights_eq_synced c.1 c.2⟩
  | step sys dt hdt _ ih =>
    intro i hi
    rw [TrafficLightSystem.update, List.mem_map] at hi
    obtain ⟨j, hj, rfl⟩ := hi
    exact synced_updateIntersection (ih j hj) dt hdt

end TrafficLightSystem

lemma TrafficLightSystem.advance_append (l₁ l₂ : List ℚ) (i : IntersectionLights) :
    TrafficLightSystem.advance (l₁ ++ l₂) i =
      TrafficLightSystem.advance l₂ (TrafficLightSystem.advance l₁ i) :=
  List.foldl_append _ _ _ _

lemma TrafficLightSystem.advance_green_partial (ds : List ℚ) (x y : Int) (ax : Axis) :
    ∀ t : ℚ, 0 ≤ t → (∀ d ∈ ds, 0 < d) → t + ds.sum < 10 →
      TrafficLightSystem.advance ds (syncedLights x y ax .green t) =
        syncedLights x y ax .green (t + ds.sum) := by
  induction ds with
  | nil => intro t _ _ _; simp [TrafficLightSystem.advance]
  | cons d ds ih =>
    intro t ht hpos hlt
    have hd : 0 < d := hpos d (List.mem_cons_self d ds)
    have hds : 0 ≤ ds.sum := List.sum_nonneg fun e he => le_of_lt (hpos e (List.mem_cons_of_mem d he))
    have hsum : t + (d :: ds).sum = (t + d) + ds.sum := by
      rw [List.sum_cons]; ring
    have hstep : TrafficLightSystem.advance (d :: ds) (syncedLights x y ax .green t) =
        TrafficLightSystem.advance ds (TrafficLightSystem.updateIntersection d
          (syncedLights x y ax .green t)) := rfl
    rw [hstep, TrafficLightSystem.updateIntersection_green,
      if_neg (by rw [List.sum_cons] at hlt; push_neg; linarith)]
    rw [hsum]
    exact ih (t + d) (by linarith) (fun e he => hpos e (List.mem_cons_of_mem d he))
      (by rw [hsum] at hlt; exact hlt)

lemma TrafficLightSystem.advance_green_exact (ds : List ℚ) (x y : Int) (ax : Axis)
    (hpos : ∀ d ∈ ds, 0 < d) (hsum : ds.sum = 10) :
    TrafficLightSystem.advance ds (syncedLights x y ax .green 0) =
      syncedLights x y ax .yellow 0 := by
  rcases List.eq_nil_or_concat ds with rfl | ⟨l, b, rfl⟩
  · simp at hsum
  · have hb : 0 < b := hpos b (by simp)
    have hl : l.sum + b = 10 := by simpa using hsum
    rw [List.concat_eq_append] at hpos ⊢
    rw [TrafficLightSystem.advance_append,
      TrafficLightSystem.advance_green_partial l x y ax 0 le_rfl
        (fun e he => hpos e (by simp [he])) (by linarith)]
    have hstep : TrafficLightSystem.advance [b] (syncedLights x y ax .green (0 + l.sum)) =
        TrafficLightSystem.updateIntersection b (syncedLights x y ax .green (0 + l.sum)) := rfl
    rw [hstep, TrafficLightSystem.updateIntersection_green, if_pos (by linarith)]

lemma TrafficLightSystem.advance_yellow_partial (ds : List ℚ) (x y : Int) (ax : Axis) :
    ∀ t : ℚ, 0 ≤ t → (∀ d ∈ ds, 0 < d) → t + ds.sum < 3 →
      TrafficLightSystem.advance ds (syncedLights x y ax .yellow t) =
        syncedLights x y ax .yellow (t + ds.sum) := by
  induction ds with
  | nil => intro t _ _ _; simp [TrafficLightSystem.advance]
  | cons d ds ih =>
    intro t ht hpos hlt
    have hd : 0 < d := hpos d (List.mem_cons_self d ds)
    have hds : 0 ≤ ds.sum := List.sum_nonneg fun e he => le_of_lt (hpos e (List.mem_cons_of_mem d he))
    have hsum : t + (d :: ds).sum = (t + d) + ds.sum := by
      rw [List.sum_cons]; ring
    have hstep : TrafficLightSystem.advance (d :: ds) (syncedLights x y ax .yellow t) =
        TrafficLightSystem.advance ds (TrafficLightSystem.updateIntersection d
          (syncedLights x y ax .yellow t)) := rfl
    rw [hstep, TrafficLightSystem.updateIntersection_yellow,
      if_neg (by rw [List.sum_cons] at hlt; push_neg; linarith)]
    rw [hsum]
    exact ih (t + d) (by linarith) (fun e he => hpos e (List.mem_cons_of_mem d he))
      (by rw [hsum] at hlt; exact hlt)

lemma TrafficLightSystem.advance_yellow_exact (ds : List ℚ) (x y : Int) (ax : Axis)
    (hpos : ∀ d ∈ ds, 0 < d) (hsum : ds.sum = 3) :
    TrafficLightSystem.advance ds (syncedLights x y ax .yellow 0) =
      syncedLights x y ax.flip .green 0 := by
  rcases List.eq_nil_or_concat ds with rfl | ⟨l, b, rfl⟩
  · simp at hsum
  · have hb : 0 < b := hpos b (by simp)
    have hl : l.sum + b = 3 := by simpa using hsum
    rw [List.concat_eq_append] at hpos ⊢
    rw [TrafficLightSystem.advance_append,
      TrafficLightSystem.advance_yellow_partial l x y ax 0 le_rfl
        (fun e he => hpos e (by simp [he])) (by linarith)]
    have hstep : TrafficLightSystem.advance [b] (syncedLights x y ax .yellow (0 + l.sum)) =
        TrafficLightSystem.updateIntersection b (syncedLights x y ax .yellow (0 + l.sum)) := rfl
    rw [hstep, TrafficLightSystem.updateIntersection_yellow, if_pos (by linarith)]

lemma TrafficLightSystem.advance_cycle (gs ys : List ℚ) (x y : Int) (ax : Axis)
    (hgpos : ∀ d ∈ gs, 0 < d) (hypos : ∀ d ∈ ys, 0 < d)
    (hgs : gs.sum = 10) (hys : ys.sum = 3) :
    TrafficLightSystem.advance (gs ++ ys) (syncedLights x y ax .green 0) =
      syncedLights x y ax.flip .green 0 := by
  rw [TrafficLightSystem.advance_append,
    TrafficLightSystem.advance_green_exact gs x y ax hgpos hgs,
    TrafficLightSystem.advance_yellow_exact ys x y ax hypos hys]

lemma TrafficLightSystem.canCrossIntersection_of_find_none
    {sys : List IntersectionLights} {tx ty : Int} (d : VehicleDirection)
    (hnone : sys.find? (fun i => i.x = tx ∧ i.y = ty) = none) :
    TrafficLightSystem.canCrossIntersection sys tx ty d = true := by
  unfold TrafficLightSystem.canCrossIntersection
  rw [hnone]

lemma TrafficLightSystem.canCrossIntersection_of_find_some
    {sys : List IntersectionLights} {tx ty : Int} {i : IntersectionLights}
    (d : VehicleDirection)
    (hfind : sys.find? (fun i => i.x = tx ∧ i.y = ty) = some i) :
    TrafficLightSystem.canCrossIntersection sys tx ty d =
      if d = .north ∨ d = .south then
        decide (i.northState = .green ∨ i.northState = .yellow)
      else
        decide (i.eastState = .green ∨ i.eastState = .yellow) := by
  unfold TrafficLightSystem.canCrossIntersection
  rw [hfind]

/-! ## Claim theorems: traffic lights -/

/-- C1: for every reachable `TrafficLightSystem` state,
`canCrossIntersection(x, y, d)` is `true` for all four directions when `(x, y)`
is not a registered intersection, and otherwise is `true` exactly when the axis
of `d` (NORTH/SOUTH ⇒ NS, EAST/WEST ⇒ EW) is the intersection's currently
active axis — in both its GREEN and YELLOW phases — and `false` for both
directions of the inactive axis. -/
theorem canCrossIntersection_fail_open_and_axis
    (sys : List IntersectionLights) (h : ReachableTLS sys)
    (tx ty : Int) (d : VehicleDirection) :
    (sys.find? (fun i => i.x = tx ∧ i.y = ty) = none →
      TrafficLightSystem.canCrossIntersection sys tx ty d = true) ∧
    (∀ i, sys.find? (fun i => i.x = tx ∧ i.y = ty) = some i →
      (TrafficLightSystem.canCrossIntersection sys tx ty d = true ↔
        d.axis = i.currentAxis)) := by
  constructor
  · exact TrafficLightSystem.canCrossIntersection_of_find_none d
  · intro i hfind
    have hmem : i ∈ sys := List.mem_of_find?_eq_some hfind
    obtain ⟨x0, y0, ax, ph, t, hph, _, hsync⟩ := TrafficLightSystem.reachable_synced h i hmem
    rw [TrafficLightSystem.canCrossIntersection_of_find_some d hfind]
    subst hsync
    rcases hph with rfl | rfl <;> cases ax <;> cases d <;>
      simp [syncedLights, VehicleDirection.axis]

/-- Witness for C1: a single freshly created intersection at (3,2) — in its
initial GREEN(NS) state a NORTH query is permitted and an EAST query is denied. -/
theorem canCrossIntersection_fail_open_and_axis_witness :
    TrafficLightSystem.canCrossIntersection
      [TrafficLightSystem.createIntersectionLights 3 2] 3 2 .north = true ∧
    TrafficLightSystem.canCrossIntersection
      [TrafficLightSystem.createIntersectionLights 3 2] 3 2 .east = false := by
  have hr : ReachableTLS [TrafficLightSystem.createIntersectionLights 3 2] := by
    have h0 := ReachableTLS.init [((3 : Int), (2 : Int))]
    simpa using h0
  have hfind : [TrafficLightSystem.createIntersectionLights 3 2].find?
      (fun i => i.x = 3 ∧ i.y = 2) =
      some (TrafficLightSystem.createIntersectionLights 3 2) := rfl
  constructor
  · exact ((canCrossIntersection_fail_open_and_axis _ hr 3 2 .north).2 _ hfind).mpr rfl
  · have hiff := ((canCrossIntersection_fail_open_and_axis _ hr 3 2 .east).2 _ hfind)
    refine Bool.eq_false_iff.mpr fun htrue => ?_
    have hax := hiff.mp htrue
    simp [VehicleDirection.axis, TrafficLightSystem.createIntersectionLights] at hax

/-- C8: from the initial GREEN(NS) state with a zero timer, any sequence of
positive `update` deltas whose running total hits `GREEN_DURATION = 10` exactly
and then ends at `GREEN_DURATION + YELLOW_DURATION = 13` exactly flips
`activeAxis` from NS to EW, and a second such full cycle — total
`2*(GREEN_DURATION+YELLOW_DURATION)` — returns it to NS. -/
theorem advance_full_cycle_flips_axis
    (x y : Int) (gs ys gs2 ys2 : List ℚ)
    (hg : ∀ d ∈ gs, 0 < d) (hy : ∀ d ∈ ys, 0 < d)
    (hg2 : ∀ d ∈ gs2, 0 < d) (hy2 : ∀ d ∈ ys2, 0 < d)
    (hgs : gs.sum = 10) (hys : ys.sum = 3)
    (hgs2 : gs2.sum = 10) (hys2 : ys2.sum = 3) :
    (TrafficLightSystem.advance (gs ++ ys)
        (TrafficLightSystem.createIntersectionLights x y)).currentAxis = Axis.ew ∧
    (TrafficLightSystem.advance ((gs ++ ys) ++ (gs2 ++ ys2))
        (TrafficLightSystem.createIntersectionLights x y)).currentAxis = Axis.ns := by
  rw [TrafficLightSystem.createIntersectionLights_eq_synced]
  constructor
  · rw [TrafficLightSystem.advance_cycle gs ys x y .ns hg hy hgs hys]
    rfl
  · rw [TrafficLightSystem.advance_append,
      TrafficLightSystem.advance_cycle gs ys x y .ns hg hy hgs hys,
      TrafficLightSystem.advance_cycle gs2 ys2 x y (Axis.ns.flip) hg2 hy2 hgs2 hys2]
    rfl

/-- Witness for C8: the two-call pattern `update(10); update(3)` flips NS→EW
and repeating it returns to NS. -/
theorem advance_full_cycle_flips_axis_witness :
    (TrafficLightSystem.advance ([10] ++ [3])
        (TrafficLightSystem.createIntersectionLights 0 0)).currentAxis = Axis.ew ∧
    (TrafficLightSystem.advance (([10] ++ [3]) ++ ([10] ++ [3]))
        (TrafficLightSystem.createIntersectionLights 0 0)).currentAxis = Axis.ns := by
  refine advance_full_cycle_flips_axis 0 0 [10] [3] [10] [3] ?_ ?_ ?_ ?_ ?_ ?_ ?_ ?_ <;>
    simp

/-- C10: one `update(Δt)` call performs at most one phase transition however
large `Δt` is — from GREEN with a zero timer, a single call with
`Δt ≥ GREEN_DURATION + YELLOW_DURATION` leaves the intersection in YELLOW on
the same axis with the timer reset to 0, and never flips `activeAxis`. -/
theorem updateIntersection_single_transition
    (x y : Int) (ax : Axis) (dt : ℚ) (h : 13 ≤ dt) :
    TrafficLightSystem.updateIntersection dt (syncedLights x y ax .green 0) =
      syncedLights x y ax .yellow 0 ∧
    (TrafficLightSystem.updateIntersection dt
        (syncedLights x y ax .green 0)).currentAxis = ax := by
  have h10 : (10:ℚ) ≤ 0 + dt := by linarith
  rw [TrafficLightSystem.updateIntersection_green, if_pos h10]
  exact ⟨rfl, by cases ax <;> rfl⟩

/-- Witness for C10: a single 13-second update from GREEN(NS) yields YELLOW(NS)
with timer 0 and the axis unchanged. -/
theorem updateIntersection_single_transition_witness :
    TrafficLightSystem.updateIntersection 13 (syncedLights 0 0 .ns .green 0) =
      syncedLights 0 0 .ns .yellow 0 ∧
    (TrafficLightSystem.updateIntersection 13
        (syncedLights 0 0 .ns .green 0)).currentAxis = Axis.ns :=
  updateIntersection_single_transition 0 0 .ns 13 le_rfl

/-! ## Vehicle-controller lemmas -/

namespace VehicleController

lemma accelerationStep_currentTileX (s : VehicleState) (dt : ℚ) :
    (accelerationStep s dt).currentTileX = s.currentTileX := by
  simp only [accelerationStep]
  repeat' split
  all_goals rfl

lemma accelerationStep_currentTileY (s : VehicleState) (dt : ℚ) :
    (accelerationStep s dt).currentTileY = s.currentTileY := by
  simp only [accelerationStep]
  repeat' split
  all_goals rfl

lemma accelerationStep_currentDirection (s : VehicleState) (dt : ℚ) :
    (accelerationStep s dt).currentDirection = s.currentDirection := by
  simp only [accelerationStep]
  repeat' split
  all_goals rfl

lemma accelerationStep_tileProgress (s : VehicleState) (dt : ℚ) :
    (accelerationStep s dt).tileProgress = s.tileProgress := by
  simp only [accelerationStep]
  repeat' split
  all_goals rfl

lemma accelerationStep_isStopped (s : VehicleState) (dt : ℚ) :
    (accelerationStep s dt).isStopped = s.isStopped := by
  simp only [accelerationStep]
  repeat' split
  all_goals rfl

lemma accelerationStep_isDecelerating (s : VehicleState) (dt : ℚ) :
    (accelerationStep s dt).isDecelerating = s.isDecelerating := by
  simp only [accelerationStep]
  repeat' split
  all_goals rfl

lemma accelerationStep_nextIntersectionTileX (s : VehicleState) (dt : ℚ) :
    (accelerationStep s dt).nextIntersectionTileX = s.nextIntersectionTileX := by
  simp only [accelerationStep]
  repeat' split
  all_goals rfl

lemma accelerationStep_nextIntersectionTileY (s : VehicleState) (dt : ℚ) :
    (accelerationStep s dt).nextIntersectionTileY = s.nextIntersectionTileY := by
  simp only [accelerationStep]
  repeat' split
  all_goals rfl

lemma accelerationStep_lastMoveTime (s : VehicleState) (dt : ℚ) :
    (accelerationStep s dt).lastMoveTime = s.lastMoveTime := by
  simp only [accelerationStep]
  repeat' split
  all_goals rfl

lemma accelerationStep_lastProgress (s : VehicleState) (dt : ℚ) :
    (accelerationStep s dt).lastProgress = s.lastProgress := by
  simp only [accelerationStep]
  repeat' split
  all_goals rfl

lemma accelerationStep_inert {s : VehicleState} (dt : ℚ)
    (h : s.isAccelerating = false) : accelerationStep s dt = s := by
  simp [accelerationStep, h]

lemma accelerationStep_small {s : VehicleState} {dt : ℚ}
    (h : s.isAccelerating = true)
    (hlt : s.currentSpeed + GameConfig.VEHICLE_ACCELERATION * dt <
      GameConfig.VEHICLE_SPEED) :
    accelerationStep s dt =
      { s with currentSpeed := s.currentSpeed + GameConfig.VEHICLE_ACCELERATION * dt } := by
  simp only [accelerationStep, h, if_true]
  rw [if_neg (by push_neg; exact hlt)]

lemma speedAfterAcceleration_eq (s : VehicleState) (dt : ℚ) :
    speedAfterAcceleration s dt = (accelerationStep s dt).currentSpeed := rfl

lemma update_not_stopped {s : VehicleState}
    (m : RoadMap) (tls : Option (List IntersectionLights)) (rnd : Nat) (now dt : ℚ)
    (h : s.isStopped = false) :
    update m tls rnd now dt s = updateMain m tls rnd now dt s := by
  cases tls <;> simp [update, h]

lemma update_stopped_denied {s : VehicleState}
    (m : RoadMap) (sys : List IntersectionLights) (rnd : Nat) (now dt : ℚ)
    (h : s.isStopped = true)
    (hden : TrafficLightSystem.canCrossIntersection sys s.nextIntersectionTileX
      s.nextIntersectionTileY s.currentDirection = false) :
    update m (some sys) rnd now dt s = { s with currentSpeed := 0 } := by
  simp [update, h, hden]

lemma update_stopped_granted {s : VehicleState}
    (m : RoadMap) (sys : List IntersectionLights) (rnd : Nat) (now dt : ℚ)
    (h : s.isStopped = true)
    (hcan : TrafficLightSystem.canCrossIntersection sys s.nextIntersectionTileX
      s.nextIntersectionTileY s.currentDirection = true) :
    update m (some sys) rnd now dt s =
      updateMain m (some sys) rnd now dt
        { s with isStopped := false, isDecelerating := false
                 isAccelerating := true, currentSpeed := 0 } := by
  simp [update, h, hcan]

lemma updateMain_normal {s : VehicleState}
    (m : RoadMap) (tls : Option (List IntersectionLights)) (rnd : Nat) (now dt : ℚ)
    (h : s.isDecelerating = false) :
    updateMain m tls rnd now dt s =
      normalMove m tls rnd now dt
        (checkForUpcomingRedLight m tls (accelerationStep s dt)) := by
  have h' : (accelerationStep s dt).isDecelerating = false := by
    rw [accelerationStep_isDecelerating, h]
  simp only [updateMain, normalMove]
  rw [if_neg (by simp [h'])]

lemma checkRed_none (m : RoadMap) (s : VehicleState) :
    checkForUpcomingRedLight m none s = s := rfl

lemma checkRed_flagged {s : VehicleState} (m : RoadMap) (sys : List IntersectionLights)
    (h : s.isDecelerating = true ∨ s.isStopped = true ∨ s.isAccelerating = true) :
    checkForUpcomingRedLight m (some sys) s = s := by
  rcases h with h | h | h <;> simp [checkForUpcomingRedLight, h]

lemma checkRed_inside {s : VehicleState} (m : RoadMap) (sys : List IntersectionLights)
    (hd : s.isDecelerating = false) (hs : s.isStopped = false) (ha : s.isAccelerating = false)
    (hcur : tileIsIntersection (getTileInfo m s.currentTileX s.currentTileY) = true) :
    checkForUpcomingRedLight m (some sys) s = s := by
  simp [checkForUpcomingRedLight, hd, hs, ha, hcur]

lemma checkRed_next_none {s : VehicleState} (m : RoadMap) (sys : List IntersectionLights)
    (hd : s.isDecelerating = false) (hs : s.isStopped = false) (ha : s.isAccelerating = false)
    (hcur : tileIsIntersection (getTileInfo m s.currentTileX s.currentTileY) = false)
    (hnt : getTileInfo m (s.currentTileX + getOffsetXForDirection s.currentDirection)
      (s.currentTileY + getOffsetYForDirection s.currentDirection) = none) :
    checkForUpcomingRedLight m (some sys) s = s := by
  simp [checkForUpcomingRedLight, hd, hs, ha, hcur, hnt]

lemma checkRed_no_red {s : VehicleState} (m : RoadMap) (sys : List IntersectionLights)
    {nt : RoadTile}
    (hd : s.isDecelerating = false) (hs : s.isStopped = false) (ha : s.isAccelerating = false)
    (hcur : tileIsIntersection (getTileInfo m s.currentTileX s.currentTileY) = false)
    (hnt : getTileInfo m (s.currentTileX + getOffsetXForDirection s.currentDirection)
      (s.currentTileY + getOffsetYForDirection s.currentDirection) = some nt)
    (hcond : ¬(nt.type = RoadTileType.intersection ∧
      TrafficLightSystem.canCrossIntersection sys
        (s.currentTileX + getOffsetXForDirection s.currentDirection)
        (s.currentTileY + getOffsetYForDirection s.currentDirection)
        s.currentDirection = false)) :
    checkForUpcomingRedLight m (some sys) s = s := by
  simp only [checkForUpcomingRedLight, hd, hs, ha, hcur, hnt]
  simp [hcond]

lemma checkRed_red_far {s : VehicleState} (m : RoadMap) (sys : List IntersectionLights)
    {nt : RoadTile}
    (hd : s.isDecelerating = false) (hs : s.isStopped = false) (ha : s.isAccelerating = false)
    (hcur : tileIsIntersection (getTileInfo m s.currentTileX s.currentTileY) = false)
    (hnt : getTileInfo m (s.currentTileX + getOffsetXForDirection s.currentDirection)
      (s.currentTileY + getOffsetYForDirection s.currentDirection) = some nt)
    (hint : nt.type = RoadTileType.intersection)
    (hden : TrafficLightSystem.canCrossIntersection sys
      (s.currentTileX + getOffsetXForDirection s.currentDirection)
      (s.currentTileY + getOffsetYForDirection s.currentDirection)
      s.currentDirection = false)
    (hfar : ¬ (4/5 : ℚ) < s.tileProgress) :
    checkForUpcomingRedLight m (some sys) s =
      { s with isDecelerating := true, isAccelerating := false
               nextIntersectionTileX :=
                 s.currentTileX + getOffsetXForDirection s.currentDirection
               nextIntersectionTileY :=
                 s.currentTileY + getOffsetYForDirection s.currentDirection } := by
  simp [checkForUpcomingRedLight, hd, hs, ha, hcur, hnt, hint, hden, hfar]

lemma checkRed_red_near {s : VehicleState} (m : RoadMap) (sys : List IntersectionLights)
    {nt : RoadTile}
    (hd : s.isDecelerating = false) (hs : s.isStopped = false) (ha : s.isAccelerating = false)
    (hcur : tileIsIntersection (getTileInfo m s.currentTileX s.currentTileY) = false)
    (hnt : getTileInfo m (s.currentTileX + getOffsetXForDirection s.currentDirection)
      (s.currentTileY + getOffsetYForDirection s.currentDirection) = some nt)
    (hint : nt.type = RoadTileType.intersection)
    (hden : TrafficLightSystem.canCrossIntersection sys
      (s.currentTileX + getOffsetXForDirection s.currentDirection)
      (s.currentTileY + getOffsetYForDirection s.currentDirection)
      s.currentDirection = false)
    (hnear : (4/5 : ℚ) < s.tileProgress) :
    checkForUpcomingRedLight m (some sys) s =
      { s with tileProgress := GameConfig.VEHICLE_STOP_POINT
               isStopped := true, isDecelerating := false, isAccelerating := false
               currentSpeed := 0
               nextIntersectionTileX :=
                 s.currentTileX + getOffsetXForDirection s.currentDirection
               nextIntersectionTileY :=
                 s.currentTileY + getOffsetYForDirection s.currentDirection } := by
  simp [checkForUpcomingRedLight, hd, hs, ha, hcur, hnt, hint, hden, hnear]

lemma checkIfStuck_fresh {s : VehicleState} (m : RoadMap) (now timeout : ℚ)
    (h : s.lastMoveTime = none) :
    checkIfStuck m now timeout s = { s with lastMoveTime := some now } := by
  simp [checkIfStuck, h]

lemma checkIfStuck_core {s : VehicleState} (m : RoadMap) (now timeout : ℚ)
    (hcur : tileIsIntersection (getTileInfo m s.currentTileX s.currentTileY) = false) :
    (checkIfStuck m now timeout s).SameCore s := by
  unfold checkIfStuck VehicleState.SameCore
  cases hl : s.lastMoveTime with
  | none => simp
  | some t0 =>
    simp only [hcur, Bool.and_false, Bool.false_eq_true, if_false]
    split_ifs <;> simp

lemma decideDirection_sameButDir (m : RoadMap) (rnd : Nat) (s : VehicleState) :
    (decideDirectionAtIntersection m rnd s).SameButDir s := by
  simp only [decideDirectionAtIntersection, VehicleState.SameButDir]
  split_ifs <;> simp

lemma adjustDirection_sameButDir (m : RoadMap) (t : RoadTile) (s : VehicleState) :
    (adjustDirectionForStraightRoad m t s).SameButDir s := by
  simp only [VehicleState.SameButDir]
  cases h : t.orientation <;>
    simp only [adjustDirectionForStraightRoad, h] <;>
    split_ifs <;> simp

lemma moveToNextTile_red {s : VehicleState} (m : RoadMap) (sys : List IntersectionLights)
    (rnd : Nat) {nt : RoadTile}
    (hnt : getTileInfo m (s.currentTileX + getOffsetXForDirection s.currentDirection)
      (s.currentTileY + getOffsetYForDirection s.currentDirection) = some nt)
    (hint : nt.type = RoadTileType.intersection)
    (hden : TrafficLightSystem.canCrossIntersection sys
      (s.currentTileX + getOffsetXForDirection s.currentDirection)
      (s.currentTileY + getOffsetYForDirection s.currentDirection)
      s.currentDirection = false) :
    moveToNextTile m (some sys) rnd s =
      { s with tileProgress := GameConfig.VEHICLE_STOP_POINT
               isStopped := true, isDecelerating := false
               nextIntersectionTileX :=
                 s.currentTileX + getOffsetXForDirection s.currentDirection
               nextIntersectionTileY :=
                 s.currentTileY + getOffsetYForDirection s.currentDirection } := by
  simp [moveToNextTile, hnt, hint, hden]

lemma moveToNextTile_out_of_bounds {s : VehicleState} (m : RoadMap)
    (tls : Option (List IntersectionLights)) (rnd : Nat)
    (hnt : getTileInfo m (s.currentTileX + getOffsetXForDirection s.currentDirection)
      (s.currentTileY + getOffsetYForDirection s.currentDirection) = none) :
    moveToNextTile m tls rnd s =
      { s with tileProgress := 0
               currentDirection := getOppositeDirection s.currentDirection } := by
  cases tls <;> simp [moveToNextTile, hnt]

lemma moveToNextTile_empty {s : VehicleState} (m : RoadMap)
    (tls : Option (List IntersectionLights)) (rnd : Nat) {nt : RoadTile}
    (hnt : getTileInfo m (s.currentTileX + getOffsetXForDirection s.currentDirection)
      (s.currentTileY + getOffsetYForDirection s.currentDirection) = some nt)
    (hempty : nt.type = RoadTileType.empty) :
    moveToNextTile m tls rnd s =
      { s with tileProgress := 0
               currentTileX := s.currentTileX + getOffsetXForDirection s.currentDirection
               currentTileY := s.currentTileY + getOffsetYForDirection s.currentDirection } := by
  cases tls <;> simp [moveToNextTile, hnt, hempty]

lemma moveToNextTile_straight {s : VehicleState} (m : RoadMap)
    (tls : Option (List IntersectionLights)) (rnd : Nat) {nt : RoadTile}
    (hnt : getTileInfo m (s.currentTileX + getOffsetXForDirection s.currentDirection)
      (s.currentTileY + getOffsetYForDirection s.currentDirection) = some nt)
    (hstraight : nt.type = RoadTileType.straight) :
    moveToNextTile m tls rnd s =
      adjustDirectionForStraightRoad m nt
        { s with tileProgress := 0
                 currentTileX := s.currentTileX + getOffsetXForDirection s.currentDirection
                 currentTileY := s.currentTileY + getOffsetYForDirection s.currentDirection } := by
  cases tls <;> simp [moveToNextTile, hnt, hstraight]

lemma moveToNextTile_intersection_granted {s : VehicleState} (m : RoadMap)
    (sys : List IntersectionLights) (rnd : Nat) {nt : RoadTile}
    (hnt : getTileInfo m (s.currentTileX + getOffsetXForDirection s.currentDirection)
      (s.currentTileY + getOffsetYForDirection s.currentDirection) = some nt)
    (hint : nt.type = RoadTileType.intersection)
    (hcan : TrafficLightSystem.canCrossIntersection sys
      (s.currentTileX + getOffsetXForDirection s.currentDirection)
      (s.currentTileY + getOffsetYForDirection s.currentDirection)
      s.currentDirection = true) :
    moveToNextTile m (some sys) rnd s =
      decideDirectionAtIntersection m rnd
        { s with tileProgress := 0
                 currentTileX := s.currentTileX + getOffsetXForDirection s.currentDirection
                 currentTileY := s.currentTileY + getOffsetYForDirection s.currentDirection } := by
  simp [moveToNextTile, hnt, hint, hcan]

lemma normalMove_cross_red {s : VehicleState} (m : RoadMap) (sys : List IntersectionLights)
    (rnd : Nat) (now dt : ℚ) {nt : RoadTile}
    (hnt : getTileInfo m (s.currentTileX + getOffsetXForDirection s.currentDirection)
      (s.currentTileY + getOffsetYForDirection s.currentDirection) = some nt)
    (hint : nt.type = RoadTileType.intersection)
    (hden : TrafficLightSystem.canCrossIntersection sys
      (s.currentTileX + getOffsetXForDirection s.currentDirection)
      (s.currentTileY + getOffsetYForDirection s.currentDirection)
      s.currentDirection = false)
    (hcross : 1 ≤ s.tileProgress + s.currentSpeed * dt)
    (hlmt : s.lastMoveTime = none) :
    normalMove m (some sys) rnd now dt s =
      { s with tileProgress := GameConfig.VEHICLE_STOP_POINT
               isStopped := true, isDecelerating := false
               nextIntersectionTileX :=
                 s.currentTileX + getOffsetXForDirection s.currentDirection
               nextIntersectionTileY :=
                 s.currentTileY + getOffsetYForDirection s.currentDirection
               lastMoveTime := some now } := by
  have hmove := moveToNextTile_red
    (s := { s with tileProgress := s.tileProgress + s.currentSpeed * dt })
    m sys rnd (by exact hnt) hint (by exact hden)
  simp only [normalMove, ge_iff_le]
  rw [if_pos (by simpa using hcross)]
  rw [hmove]
  simp only [checkIfStuck_fresh, hlmt]

lemma moveToNextTile_not_blocked (m : RoadMap) (sys : List IntersectionLights)
    (rnd : Nat) (s : VehicleState)
    (hsafe : ∀ nt : RoadTile,
      getTileInfo m (s.currentTileX + getOffsetXForDirection s.currentDirection)
        (s.currentTileY + getOffsetYForDirection s.currentDirection) = some nt →
      nt.type = RoadTileType.intersection →
      TrafficLightSystem.canCrossIntersection sys
        (s.currentTileX + getOffsetXForDirection s.currentDirection)
        (s.currentTileY + getOffsetYForDirection s.currentDirection)
        s.currentDirection = true) :
    (moveToNextTile m (some sys) rnd s).isStopped = s.isStopped ∧
    (moveToNextTile m (some sys) rnd s).isAccelerating = s.isAccelerating ∧
    (moveToNextTile m (some sys) rnd s).currentSpeed = s.currentSpeed ∧
    (moveToNextTile m (some sys) rnd s).lastMoveTime = s.lastMoveTime := by
  rcases hnt : getTileInfo m
      (s.currentTileX + getOffsetXForDirection s.currentDirection)
      (s.currentTileY + getOffsetYForDirection s.currentDirection) with _ | nt
  · rw [moveToNextTile_out_of_bounds m (some sys) rnd hnt]
    exact ⟨rfl, rfl, rfl, rfl⟩
  · cases htype : nt.type with
    | empty =>
      rw [moveToNextTile_empty m (some sys) rnd hnt htype]
      exact ⟨rfl, rfl, rfl, rfl⟩
    | straight =>
      rw [moveToNextTile_straight m (some sys) rnd hnt htype]
      obtain ⟨_, _, _, h4, _, h6, _, _, h9, h10, _⟩ := adjustDirection_sameButDir m nt
        { s with tileProgress := 0
                 currentTileX := s.currentTileX + getOffsetXForDirection s.currentDirection
                 currentTileY := s.currentTileY + getOffsetYForDirection s.currentDirection }
      exact ⟨h4, h6, h9, h10⟩
    | intersection =>
      rw [moveToNextTile_intersection_granted m sys rnd hnt htype (hsafe nt hnt htype)]
      obtain ⟨_, _, _, h4, _, h6, _, _, h9, h10, _⟩ := decideDirection_sameButDir m rnd
        { s with tileProgress := 0
                 currentTileX := s.currentTileX + getOffsetXForDirection s.currentDirection
                 currentTileY := s.currentTileY + getOffsetYForDirection s.currentDirection }
      exact ⟨h4, h6, h9, h10⟩

lemma normalMove_no_cross {s : VehicleState} (m : RoadMap)
    (tls : Option (List IntersectionLights)) (rnd : Nat) (now dt : ℚ)
    (hno : ¬ (1:ℚ) ≤ s.tileProgress + s.currentSpeed * dt)
    (hlmt : s.lastMoveTime = none) :
    normalMove m tls rnd now dt s =
      { s with tileProgress := s.tileProgress + s.currentSpeed * dt
               lastMoveTime := some now } := by
  simp only [normalMove, ge_iff_le]
  rw [if_neg (by simpa using hno)]
  simp only [checkIfStuck_fresh, hlmt]

lemma normalMove_fields_not_blocked (m : RoadMap) (sys : List IntersectionLights)
    (rnd : Nat) (now dt : ℚ) (s : VehicleState)
    (hsafe : ∀ nt : RoadTile,
      getTileInfo m (s.currentTileX + getOffsetXForDirection s.currentDirection)
        (s.currentTileY + getOffsetYForDirection s.currentDirection) = some nt →
      nt.type = RoadTileType.intersection →
      TrafficLightSystem.canCrossIntersection sys
        (s.currentTileX + getOffsetXForDirection s.currentDirection)
        (s.currentTileY + getOffsetYForDirection s.currentDirection)
        s.currentDirection = true)
    (hlmt : s.lastMoveTime = none) :
    (normalMove m (some sys) rnd now dt s).isStopped = s.isStopped ∧
    (normalMove m (some sys) rnd now dt s).isAccelerating = s.isAccelerating ∧
    (normalMove m (some sys) rnd now dt s).currentSpeed = s.currentSpeed := by
  simp only [normalMove, ge_iff_le]
  split_ifs with hB
  · have hmb := moveToNextTile_not_blocked m sys rnd
      { s with tileProgress := s.tileProgress + s.currentSpeed * dt } (by exact hsafe)
    obtain ⟨hb1, hb2, hb3, hb4⟩ := hmb
    rw [checkIfStuck_fresh _ now 10 (by rw [hb4]; exact hlmt)]
    exact ⟨hb1, hb2, hb3⟩
  · rw [checkIfStuck_fresh _ now 10 (by exact hlmt)]
    exact ⟨rfl, rfl, rfl⟩

end VehicleController

/-! ## Claim theorems: vehicles -/

/-- C3: during `update`, for a vehicle with none of the three kinematic flags
set: if its current tile is an INTERSECTION it never begins decelerating (the
check leaves the state untouched); otherwise, if the tile one cell ahead along
its heading is an INTERSECTION whose signal denies the heading, it switches to
DECELERATING and records the pending intersection — and when `tileProgress`
is already above 0.8 it instead snaps directly to `STOP_POINT`, STOPPED, with
`currentSpeed = 0`. -/
theorem upcomingRedLight_check_behavior
    (m : RoadMap) (sys : List IntersectionLights) (s : VehicleState)
    (hd : s.isDecelerating = false) (hs : s.isStopped = false)
    (ha : s.isAccelerating = false) :
    (VehicleController.tileIsIntersection (getTileInfo m s.currentTileX s.currentTileY) = true →
      VehicleController.checkForUpcomingRedLight m (some sys) s = s) ∧
    (∀ nt : RoadTile,
      VehicleController.tileIsIntersection (getTileInfo m s.currentTileX s.currentTileY) = false →
      getTileInfo m (s.currentTileX + VehicleController.getOffsetXForDirection s.currentDirection)
        (s.currentTileY + VehicleController.getOffsetYForDirection s.currentDirection) = some nt →
      nt.type = RoadTileType.intersection →
      TrafficLightSystem.canCrossIntersection sys
        (s.currentTileX + VehicleController.getOffsetXForDirection s.currentDirection)
        (s.currentTileY + VehicleController.getOffsetYForDirection s.currentDirection)
        s.currentDirection = false →
      (¬ (4/5 : ℚ) < s.tileProgress →
        VehicleController.checkForUpcomingRedLight m (some sys) s =
          { s with isDecelerating := true, isAccelerating := false
                   nextIntersectionTileX :=
                     s.currentTileX + VehicleController.getOffsetXForDirection s.currentDirection
                   nextIntersectionTileY :=
                     s.currentTileY + VehicleController.getOffsetYForDirection s.currentDirection }) ∧
      ((4/5 : ℚ) < s.tileProgress →
        VehicleController.checkForUpcomingRedLight m (some sys) s =
          { s with tileProgress := GameConfig.VEHICLE_STOP_POINT
                   isStopped := true, isDecelerating := false, isAccelerating := false
                   currentSpeed := 0
                   nextIntersectionTileX :=
                     s.currentTileX + VehicleController.getOffsetXForDirection s.currentDirection
                   nextIntersectionTileY :=
                     s.currentTileY + VehicleController.getOffsetYForDirection s.currentDirection })) := by
  refine ⟨fun hcur => VehicleController.checkRed_inside m sys hd hs ha hcur, ?_⟩
  intro nt hcur hnt hint hden
  exact ⟨fun hfar => VehicleController.checkRed_red_far m sys hd hs ha hcur hnt hint hden hfar,
    fun hnear => VehicleController.checkRed_red_near m sys hd hs ha hcur hnt hint hden hnear⟩

/-- C2: when a vehicle's `tileProgress` reaches 1.0 during `update` and the
tile one cell along its heading is an INTERSECTION whose signal denies the
heading, the transition does not advance the grid coordinates; instead
`tileProgress` is forced to `STOP_POINT` on the current tile, the vehicle
becomes STOPPED, and the pending intersection coordinates are recorded. -/
theorem redIntersection_blocks_tile_transition
    (m : RoadMap) (sys : List IntersectionLights) (rnd : Nat) (now dt : ℚ)
    (s : VehicleState) {nt : RoadTile}
    (hs : s.isStopped = false) (hd : s.isDecelerating = false)
    (hnt : getTileInfo m
      (s.currentTileX + VehicleController.getOffsetXForDirection s.currentDirection)
      (s.currentTileY + VehicleController.getOffsetYForDirection s.currentDirection) = some nt)
    (hint : nt.type = RoadTileType.intersection)
    (hden : TrafficLightSystem.canCrossIntersection sys
      (s.currentTileX + VehicleController.getOffsetXForDirection s.currentDirection)
      (s.currentTileY + VehicleController.getOffsetYForDirection s.currentDirection)
      s.currentDirection = false)
    (hcross : 1 ≤ s.tileProgress + VehicleController.speedAfterAcceleration s dt * dt)
    (hlmt : s.lastMoveTime = none) :
    (VehicleController.update m (some sys) rnd now dt s).currentTileX = s.currentTileX ∧
    (VehicleController.update m (some sys) rnd now dt s).currentTileY = s.currentTileY ∧
    (VehicleController.update m (some sys) rnd now dt s).tileProgress =
      GameConfig.VEHICLE_STOP_POINT ∧
    (VehicleController.update m (some sys) rnd now dt s).isStopped = true ∧
    (VehicleController.update m (some sys) rnd now dt s).nextIntersectionTileX =
      s.currentTileX + VehicleController.getOffsetXForDirection s.currentDirection ∧
    (VehicleController.update m (some sys) rnd now dt s).nextIntersectionTileY =
      s.currentTileY + VehicleController.getOffsetYForDirection s.currentDirection := by
  rw [VehicleController.update_not_stopped m (some sys) rnd now dt hs,
    VehicleController.updateMain_normal m (some sys) rnd now dt hd]
  set s1 := VehicleController.accelerationStep s dt with hs1
  have hx : s1.currentTileX = s.currentTileX := VehicleController.accelerationStep_currentTileX s dt
  have hy : s1.currentTileY = s.currentTileY := VehicleController.accelerationStep_currentTileY s dt
  have hdir : s1.currentDirection = s.currentDirection :=
    VehicleController.accelerationStep_currentDirection s dt
  have hp : s1.tileProgress = s.tileProgress := VehicleController.accelerationStep_tileProgress s dt
  have hstop1 : s1.isStopped = false := by
    rw [VehicleController.accelerationStep_isStopped, hs]
  have hdec1 : s1.isDecelerating = false := by
    rw [VehicleController.accelerationStep_isDecelerating, hd]
  have hlmt1 : s1.lastMoveTime = none := by
    rw [VehicleController.accelerationStep_lastMoveTime, hlmt]
  have hnt1 : getTileInfo m
      (s1.currentTileX + VehicleController.getOffsetXForDirection s1.currentDirection)
      (s1.currentTileY + VehicleController.getOffsetYForDirection s1.currentDirection) = some nt := by
    rw [hx, hy, hdir]; exact hnt
  have hden1 : TrafficLightSystem.canCrossIntersection sys
      (s1.currentTileX + VehicleController.getOffsetXForDirection s1.currentDirection)
      (s1.currentTileY + VehicleController.getOffsetYForDirection s1.currentDirection)
      s1.currentDirection = false := by
    rw [hx, hy, hdir]; exact hden
  have hcross1 : 1 ≤ s1.tileProgress + s1.currentSpeed * dt := by
    rw [VehicleController.speedAfterAcceleration_eq, ← hs1] at hcross
    rw [hp]; exact hcross
  have finish_inert :
      VehicleController.checkForUpcomingRedLight m (some sys) s1 = s1 →
      (VehicleController.normalMove m (some sys) rnd now dt
        (VehicleController.checkForUpcomingRedLight m (some sys) s1)).currentTileX = s.currentTileX ∧
      (VehicleController.normalMove m (some sys) rnd now dt
        (VehicleController.checkForUpcomingRedLight m (some sys) s1)).currentTileY = s.currentTileY ∧
      (VehicleController.normalMove m (some sys) rnd now dt
        (VehicleController.checkForUpcomingRedLight m (some sys) s1)).tileProgress =
          GameConfig.VEHICLE_STOP_POINT ∧
      (VehicleController.normalMove m (some sys) rnd now dt
        (VehicleController.checkForUpcomingRedLight m (some sys) s1)).isStopped = true ∧
      (VehicleController.normalMove m (some sys) rnd now dt
        (VehicleController.checkForUpcomingRedLight m (some sys) s1)).nextIntersectionTileX =
          s.currentTileX + VehicleController.getOffsetXForDirection s.currentDirection ∧
      (VehicleController.normalMove m (some sys) rnd now dt
        (VehicleController.checkForUpcomingRedLight m (some sys) s1)).nextIntersectionTileY =
          s.currentTileY + VehicleController.getOffsetYForDirection s.currentDirection := by
    intro hchk
    rw [hchk, VehicleController.normalMove_cross_red m sys rnd now dt hnt1 hint hden1 hcross1 hlmt1]
    refine ⟨hx, hy, rfl, rfl, ?_, ?_⟩ <;> rw [hx, hy, hdir]
  cases hacc : s1.isAccelerating with
  | true =>
    exact finish_inert (VehicleController.checkRed_flagged m sys (Or.inr (Or.inr hacc)))
  | false =>
    cases hcur : VehicleController.tileIsIntersection (getTileInfo m s1.currentTileX s1.currentTileY) with
    | true =>
      exact finish_inert (VehicleController.checkRed_inside m sys hdec1 hstop1 hacc hcur)
    | false =>
      by_cases hfar : (4/5 : ℚ) < s1.tileProgress
      · -- snap branch: the check itself stops the vehicle at the stop point
        rw [VehicleController.checkRed_red_near m sys hdec1 hstop1 hacc hcur hnt1 hint hden1 hfar]
        rw [VehicleController.normalMove_no_cross m (some sys) rnd now dt
          (by simp [GameConfig.VEHICLE_STOP_POINT]; norm_num) (by simpa using hlmt1)]
        refine ⟨hx, hy, by simp, rfl, ?_, ?_⟩ <;> simp [hx, hy, hdir]
      · rw [VehicleController.checkRed_red_far m sys hdec1 hstop1 hacc hcur hnt1 hint hden1 hfar]
        rw [VehicleController.normalMove_cross_red m sys rnd now dt
          (by simpa using hnt1) hint (by simpa using hden1) (by simpa using hcross1)
          (by simpa using hlmt1)]
        refine ⟨hx, hy, rfl, rfl, ?_, ?_⟩ <;> simp [hx, hy, hdir]

/-- Witness for C2: a vehicle at `tileProgress = 0.9`, speed `0.8`, heading
EAST into the red intersection (1,0): one `update(1)` leaves it on tile (0,0),
clamped to the stop point, stopped, with the pending intersection recorded. -/
theorem redIntersection_blocks_tile_transition_witness :
    (VehicleController.update crossMap (some sysNS) 0 0 1 boundaryState).currentTileX = 0 ∧
    (VehicleController.update crossMap (some sysNS) 0 0 1 boundaryState).currentTileY = 0 ∧
    (VehicleController.update crossMap (some sysNS) 0 0 1 boundaryState).tileProgress =
      GameConfig.VEHICLE_STOP_POINT ∧
    (VehicleController.update crossMap (some sysNS) 0 0 1 boundaryState).isStopped = true ∧
    (VehicleController.update crossMap (some sysNS) 0 0 1 boundaryState).nextIntersectionTileX = 1 ∧
    (VehicleController.update crossMap (some sysNS) 0 0 1 boundaryState).nextIntersectionTileY = 0 := by
  have h := redIntersection_blocks_tile_transition crossMap sysNS 0 0 1 boundaryState
    rfl rfl rfl rfl rfl
    (by norm_num [boundaryState, VehicleController.construct,
      VehicleController.speedAfterAcceleration, VehicleController.accelerationStep])
    rfl
  exact h

/-- C4: a STOPPED vehicle with a recorded pending intersection stays entirely
frozen (grid cell, heading, progress unchanged; speed pinned at 0) on every
update while `canCrossIntersection` still denies its heading, and on the first
update after the signal permits it switches to ACCELERATING with `currentSpeed`
restarting from 0 and strictly positive within that same tick. -/
theorem stoppedVehicle_wait_and_restart
    (m : RoadMap) (sys : List IntersectionLights) (rnd : Nat) (now dt : ℚ)
    (s : VehicleState) (hstop : s.isStopped = true) :
    (TrafficLightSystem.canCrossIntersection sys s.nextIntersectionTileX
        s.nextIntersectionTileY s.currentDirection = false →
      VehicleController.update m (some sys) rnd now dt s = { s with currentSpeed := 0 }) ∧
    (TrafficLightSystem.canCrossIntersection sys s.nextIntersectionTileX
        s.nextIntersectionTileY s.currentDirection = true →
      0 < dt →
      GameConfig.VEHICLE_ACCELERATION * dt < GameConfig.VEHICLE_SPEED →
      s.lastMoveTime = none →
      s.nextIntersectionTileX =
        s.currentTileX + VehicleController.getOffsetXForDirection s.currentDirection →
      s.nextIntersectionTileY =
        s.currentTileY + VehicleController.getOffsetYForDirection s.currentDirection →
      (VehicleController.update m (some sys) rnd now dt s).isAccelerating = true ∧
      (VehicleController.update m (some sys) rnd now dt s).isStopped = false ∧
      (VehicleController.update m (some sys) rnd now dt s).currentSpeed =
        GameConfig.VEHICLE_ACCELERATION * dt ∧
      0 < (VehicleController.update m (some sys) rnd now dt s).currentSpeed) := by
  constructor
  · intro hden
    exact VehicleController.update_stopped_denied m sys rnd now dt hstop hden
  · intro hcan hdt hdt4 hlmt hpx hpy
    rw [VehicleController.update_stopped_granted m sys rnd now dt hstop hcan]
    rw [VehicleController.updateMain_normal m (some sys) rnd now dt rfl]
    rw [VehicleController.accelerationStep_small rfl (by simpa using hdt4)]
    rw [VehicleController.checkRed_flagged m sys (Or.inr (Or.inr rfl))]
    have hcan' : TrafficLightSystem.canCrossIntersection sys
        (s.currentTileX + VehicleController.getOffsetXForDirection s.currentDirection)
        (s.currentTileY + VehicleController.getOffsetYForDirection s.currentDirection)
        s.currentDirection = true := by
      rw [← hpx, ← hpy]; exact hcan
    have hmain := VehicleController.normalMove_fields_not_blocked m sys rnd now dt
      { { s with isStopped := false, isDecelerating := false
                 isAccelerating := true, currentSpeed := 0 } with
          currentSpeed :=
            ({ s with isStopped := false, isDecelerating := false
                      isAccelerating := true, currentSpeed := 0 } : VehicleState).currentSpeed +
              GameConfig.VEHICLE_ACCELERATION * dt }
      (by intro nt h1 h2; exact hcan' )
      (by exact hlmt)
    obtain ⟨hm1, hm2, hm3⟩ := hmain
    refine ⟨?_, ?_, ?_, ?_⟩
    · exact hm2
    · exact hm1
    · rw [hm3]; simp
    · rw [hm3]
      simp only [zero_add]
      have : (0:ℚ) < GameConfig.VEHICLE_ACCELERATION * dt :=
        mul_pos (by norm_num [GameConfig.VEHICLE_ACCELERATION]) hdt
      simpa using this

/-- Witness for C4: the stopped vehicle before intersection (1,0): while the
light is GREEN(NS) the state is frozen with speed 0; once GREEN(EW), one
`update(1)` restarts it in acceleration mode at speed `0.2`. -/
theorem stoppedVehicle_wait_and_restart_witness :
    VehicleController.update crossMap (some sysNS) 0 0 1 stoppedState =
      { stoppedState with currentSpeed := 0 } ∧
    (VehicleController.update crossMap (some sysEW) 0 0 1 stoppedState).isAccelerating = true ∧
    (VehicleController.update crossMap (some sysEW) 0 0 1 stoppedState).isStopped = false ∧
    (VehicleController.update crossMap (some sysEW) 0 0 1 stoppedState).currentSpeed =
      GameConfig.VEHICLE_ACCELERATION * 1 ∧
    0 < (VehicleController.update crossMap (some sysEW) 0 0 1 stoppedState).currentSpeed := by
  refine ⟨?_, ?_⟩
  · exact (stoppedVehicle_wait_and_restart crossMap sysNS 0 0 1 stoppedState rfl).1 rfl
  · have h := (stoppedVehicle_wait_and_restart crossMap sysEW 0 0 1 stoppedState rfl).2
      rfl (by norm_num)
      (by norm_num [GameConfig.VEHICLE_ACCELERATION, GameConfig.VEHICLE_SPEED])
      rfl rfl rfl
    exact h

/-- Counterexample to C5 as stated: while decelerating at `tileProgress = 0.85`
(within 0.2 of the stop point) the proximity factor of the code (2.5 here)
makes the speed drop by more than `DECEL_RATE * Δt`: one `update(0.01)` from
speed 0.8 yields 0.7875, not `0.8 - 0.5*0.01 = 0.795`. -/
theorem decel_exact_rate_counterexample :
    (VehicleController.update [] none 0 0 (1/100) decelState).currentSpeed ≠
      decelState.currentSpeed - GameConfig.VEHICLE_DECELERATION * (1/100) := by
  have h : (VehicleController.update [] none 0 0 (1/100) decelState).currentSpeed = 63/80 := by
    norm_num [VehicleController.update, VehicleController.updateMain,
      VehicleController.accelerationStep, decelState, VehicleController.construct,
      GameConfig.VEHICLE_STOP_POINT, GameConfig.VEHICLE_DECELERATION,
      GameConfig.VEHICLE_ACCELERATION, GameConfig.VEHICLE_SPEED]
  rw [h]
  norm_num [decelState, VehicleController.construct, GameConfig.VEHICLE_DECELERATION]

/-- C5 (amended): while DECELERATING short of the stop point, each `update(Δt)`
reduces `currentSpeed` by `DECEL_RATE * f * Δt` — floored at 0 — where
`f = max 1 (3 - 10*(STOP_POINT - tileProgress))` is a proximity factor (not by
exactly `DECEL_RATE * Δt`); if the reduced speed falls below 0.02 the vehicle
stops immediately (speed 0, progress snapped to `STOP_POINT` only when within
0.05 of it); otherwise `tileProgress` advances by the reduced speed times `Δt`
and, on reaching `STOP_POINT`, is clamped there with mode STOPPED and
`currentSpeed = 0`, skipping the normal movement/tile-advance logic. -/
theorem decelerating_update_behavior
    (m : RoadMap) (tls : Option (List IntersectionLights)) (rnd : Nat) (now dt : ℚ)
    (s : VehicleState) (v : ℚ)
    (hv : v = max 0 (s.currentSpeed - GameConfig.VEHICLE_DECELERATION *
      max 1 (3 - (GameConfig.VEHICLE_STOP_POINT - s.tileProgress) * 10) * dt))
    (hs : s.isStopped = false) (hd : s.isDecelerating = true) (ha : s.isAccelerating = false)
    (hlt : s.tileProgress < GameConfig.VEHICLE_STOP_POINT) :
    (v < 1/50 →
      VehicleController.update m tls rnd now dt s =
        { s with currentSpeed := 0, isStopped := true, isDecelerating := false
                 tileProgress :=
                   if GameConfig.VEHICLE_STOP_POINT - s.tileProgress < 1/20 then
                     GameConfig.VEHICLE_STOP_POINT
                   else s.tileProgress }) ∧
    (¬ v < 1/50 → GameConfig.VEHICLE_STOP_POINT ≤ s.tileProgress + v * dt →
      VehicleController.update m tls rnd now dt s =
        { s with tileProgress := GameConfig.VEHICLE_STOP_POINT
                 isStopped := true, isDecelerating := false, currentSpeed := 0 }) ∧
    (¬ v < 1/50 → s.tileProgress + v * dt < GameConfig.VEHICLE_STOP_POINT →
      VehicleController.update m tls rnd now dt s =
        { s with currentSpeed := v, tileProgress := s.tileProgress + v * dt }) := by
  subst hv
  have hpre : VehicleController.update m tls rnd now dt s =
      VehicleController.updateMain m tls rnd now dt s :=
    VehicleController.update_not_stopped m tls rnd now dt hs
  refine ⟨fun h1 => ?_, fun h1 h2 => ?_, fun h1 h2 => ?_⟩ <;>
    rw [hpre] <;>
    simp only [VehicleController.updateMain,
      VehicleController.accelerationStep_inert dt ha, hd, eq_self_iff_true, if_true,
      ge_iff_le] <;>
    rw [if_neg (not_le.mpr hlt)]
  · rw [if_pos h1]
    split_ifs <;> rfl
  · rw [if_neg h1, if_pos h2]
  · rw [if_neg h1, if_neg (not_le.mpr h2)]

/-- Witness for C5 (amended): the decelerating vehicle at progress 0.85, speed
0.8: one `update(0.01)` reduces the speed to 0.7875 (factor 2.5) and advances
the progress accordingly. -/
theorem decelerating_update_behavior_witness :
    VehicleController.update [] none 0 0 (1/100) decelState =
      { decelState with currentSpeed := 63/80
                        tileProgress := 17/20 + (63/80) * (1/100) } := by
  have h := (decelerating_update_behavior [] none 0 0 (1/100) decelState (63/80)
    (by norm_num [decelState, VehicleController.construct,
      GameConfig.VEHICLE_STOP_POINT, GameConfig.VEHICLE_DECELERATION])
    rfl rfl rfl
    (by norm_num [decelState, VehicleController.construct,
      GameConfig.VEHICLE_STOP_POINT])).2.2
    (by norm_num)
    (by norm_num [decelState, VehicleController.construct, GameConfig.VEHICLE_STOP_POINT])
  exact h

/-- C6 (claim vs code): with the tile one cell ahead present but EMPTY, the
tile transition does NOT reverse the heading — the vehicle advances onto the
EMPTY tile, keeping heading NORTH, contradicting the specified dead-end
reversal (heading SOUTH, grid coordinates unchanged). Evaluated at the failing
input: vehicle at (0,1) heading NORTH with an EMPTY tile at (0,0). -/
theorem deadEnd_empty_tile_is_entered :
    (VehicleController.update deadEndMap none 0 0 1 deadEndState).currentTileX = 0 ∧
    (VehicleController.update deadEndMap none 0 0 1 deadEndState).currentTileY = 0 ∧
    (VehicleController.update deadEndMap none 0 0 1 deadEndState).currentDirection =
      VehicleDirection.north ∧
    (VehicleController.update deadEndMap none 0 0 1 deadEndState).tileProgress = 0 := by
  rw [VehicleController.update_not_stopped deadEndMap none 0 0 1 rfl,
    VehicleController.updateMain_normal deadEndMap none 0 0 1 rfl,
    VehicleController.accelerationStep_inert 1
      (show deadEndState.isAccelerating = false from rfl),
    VehicleController.checkRed_none]
  have hmove := VehicleController.moveToNextTile_empty
    (s := { deadEndState with
        tileProgress := deadEndState.tileProgress + deadEndState.currentSpeed * 1 })
    deadEndMap none 0 (by rfl) rfl
  simp only [VehicleController.normalMove, ge_iff_le]
  rw [if_pos (by norm_num [deadEndState, VehicleController.construct] :
    (1:ℚ) ≤ deadEndState.tileProgress + deadEndState.currentSpeed * 1)]
  rw [hmove]
  simp only [VehicleController.checkIfStuck_fresh, show deadEndState.lastMoveTime = none from rfl]
  norm_num [deadEndState, VehicleController.construct,
    VehicleController.getOffsetXForDirection, VehicleController.getOffsetYForDirection]

/-- C7: at an intersection, the set of candidate headings is exactly the
directions other than the reverse of the entering heading whose neighbor tile
exists, is non-EMPTY, and — when STRAIGHT — has an orientation matching the
candidate's axis; every possible random choice picks a member of that set, and
when the set is empty the heading becomes the reverse of the entering heading. -/
theorem intersection_turn_choice (m : RoadMap) (rnd : Nat) (s : VehicleState) :
    (∀ d : VehicleDirection, d ∈ VehicleController.possibleDirections m s ↔
      (d ≠ VehicleController.getOppositeDirection s.currentDirection ∧
       ∃ nt : RoadTile,
         getTileInfo m (s.currentTileX + VehicleController.getOffsetXForDirection d)
           (s.currentTileY + VehicleController.getOffsetYForDirection d) = some nt ∧
         nt.type ≠ RoadTileType.empty ∧
         (nt.type = RoadTileType.straight →
           VehicleController.isDirectionCompatibleWithRoad d nt = true))) ∧
    (VehicleController.possibleDirections m s ≠ [] →
      (VehicleController.decideDirectionAtIntersection m rnd s).currentDirection ∈
        VehicleController.possibleDirections m s) ∧
    (VehicleController.possibleDirections m s = [] →
      (VehicleController.decideDirectionAtIntersection m rnd s).currentDirection =
        VehicleController.getOppositeDirection s.currentDirection) := by
  refine ⟨?_, ?_, ?_⟩
  · intro d
    have hd4 : d ∈ [VehicleDirection.north, .east, .south, .west] := by
      cases d <;> simp
    rw [VehicleController.possibleDirections, List.mem_filter]
    simp only [hd4, true_and]
    cases hnt : getTileInfo m
        (s.currentTileX + VehicleController.getOffsetXForDirection d)
        (s.currentTileY + VehicleController.getOffsetYForDirection d) with
    | none => simp
    | some nt =>
      by_cases hstr : nt.type = RoadTileType.straight <;>
        simp [hstr, Bool.and_eq_true, decide_eq_true_eq]
  · intro hne
    simp only [VehicleController.decideDirectionAtIntersection]
    rw [if_neg (by simp [List.isEmpty_iff, hne])]
    have hlt : rnd % (VehicleController.possibleDirections m s).length <
        (VehicleController.possibleDirections m s).length :=
      Nat.mod_lt _ (List.length_pos.mpr hne)
    simp only [List.getD_eq_getElem?_getD, List.getElem?_eq_getElem hlt, Option.getD_some]
    exact List.getElem_mem hlt
  · intro hemp
    simp [VehicleController.decideDirectionAtIntersection, hemp]

/-- Witness for C7: entering the intersection (1,1) of `turnMap` heading NORTH
(EMPTY to the north, navigable east/west roads, vertical road south), the
candidate set is exactly [EAST, WEST] — SOUTH, the reverse, is excluded — and
the decided heading is a member of it. -/
theorem intersection_turn_choice_witness :
    (VehicleController.decideDirectionAtIntersection turnMap 0 turnState).currentDirection ∈
      VehicleController.possibleDirections turnMap turnState ∧
    VehicleController.possibleDirections turnMap turnState =
      [VehicleDirection.east, VehicleDirection.west] := by
  constructor
  · exact (intersection_turn_choice turnMap 0 turnState).2.1 (by decide)
  · decide

/-- Witness for C3: a cruising vehicle on the straight tile (0,0) heading EAST
with `tileProgress = 0.5`, facing the red intersection (1,0), starts
decelerating and records the pending intersection. -/
theorem upcomingRedLight_check_behavior_witness :
    VehicleController.checkForUpcomingRedLight crossMap (some sysNS) cruiseState =
      { cruiseState with isDecelerating := true, isAccelerating := false
                         nextIntersectionTileX := 1, nextIntersectionTileY := 0 } := by
  have h := ((upcomingRedLight_check_behavior crossMap sysNS cruiseState rfl rfl rfl).2
    ⟨.intersection, .horizontal⟩ rfl rfl rfl rfl).1 (by norm_num [cruiseState, VehicleController.construct])
  exact h

/-! ## Invariant machinery for C9 -/

namespace VehicleController

lemma decideDirection_tileProgress (m : RoadMap) (rnd : Nat) (s : VehicleState) :
    (decideDirectionAtIntersection m rnd s).tileProgress = s.tileProgress := by
  obtain ⟨_, _, h, _, _, _, _, _, _, _, _⟩ := decideDirection_sameButDir m rnd s
  exact h

lemma decideDirection_currentSpeed (m : RoadMap) (rnd : Nat) (s : VehicleState) :
    (decideDirectionAtIntersection m rnd s).currentSpeed = s.currentSpeed := by
  obtain ⟨_, _, _, _, _, _, _, _, h, _, _⟩ := decideDirection_sameButDir m rnd s
  exact h

lemma adjustDirection_tileProgress (m : RoadMap) (t : RoadTile) (s : VehicleState) :
    (adjustDirectionForStraightRoad m t s).tileProgress = s.tileProgress := by
  obtain ⟨_, _, h, _, _, _, _, _, _, _, _⟩ := adjustDirection_sameButDir m t s
  exact h

lemma adjustDirection_currentSpeed (m : RoadMap) (t : RoadTile) (s : VehicleState) :
    (adjustDirectionForStraightRoad m t s).currentSpeed = s.currentSpeed := by
  obtain ⟨_, _, _, _, _, _, _, _, h, _, _⟩ := adjustDirection_sameButDir m t s
  exact h

lemma moveToNextTile_progress_cases (m : RoadMap) (tls : Option (List IntersectionLights))
    (rnd : Nat) (s : VehicleState) :
    (moveToNextTile m tls rnd s).tileProgress = GameConfig.VEHICLE_STOP_POINT ∨
    (moveToNextTile m tls rnd s).tileProgress = 0 := by
  simp only [moveToNextTile]
  repeat' split
  all_goals first
    | exact Or.inl rfl
    | exact Or.inr rfl
    | exact Or.inr (by rw [decideDirection_tileProgress])
    | exact Or.inr (by rw [adjustDirection_tileProgress])

lemma moveToNextTile_currentSpeed (m : RoadMap) (tls : Option (List IntersectionLights))
    (rnd : Nat) (s : VehicleState) :
    (moveToNextTile m tls rnd s).currentSpeed = s.currentSpeed := by
  simp only [moveToNextTile]
  repeat' split
  all_goals first
    | rfl
    | rw [decideDirection_currentSpeed]
    | rw [adjustDirection_currentSpeed]

lemma checkRed_progress_cases (m : RoadMap) (tls : Option (List IntersectionLights))
    (s : VehicleState) :
    (checkForUpcomingRedLight m tls s).tileProgress = s.tileProgress ∨
    (checkForUpcomingRedLight m tls s).tileProgress = GameConfig.VEHICLE_STOP_POINT := by
  cases tls with
  | none => exact Or.inl rfl
  | some sys =>
    simp only [checkForUpcomingRedLight]
    repeat' split
    all_goals first | exact Or.inl rfl | exact Or.inr rfl

lemma checkRed_speed_cases (m : RoadMap) (tls : Option (List IntersectionLights))
    (s : VehicleState) :
    (checkForUpcomingRedLight m tls s).currentSpeed = s.currentSpeed ∨
    (checkForUpcomingRedLight m tls s).currentSpeed = 0 := by
  cases tls with
  | none => exact Or.inl rfl
  | some sys =>
    simp only [checkForUpcomingRedLight]
    repeat' split
    all_goals first | exact Or.inl rfl | exact Or.inr rfl

lemma resetVehicle_tileProgress (m : RoadMap) (now : ℚ) (nx ny : Int)
    (d : VehicleDirection) (s : VehicleState) :
    (resetVehicle m now nx ny d s).tileProgress = 0 := by
  simp only [resetVehicle]
  repeat' split
  all_goals first | rfl | rw [adjustDirection_tileProgress]

lemma resetVehicle_currentSpeed (m : RoadMap) (now : ℚ) (nx ny : Int)
    (d : VehicleDirection) (s : VehicleState) :
    (resetVehicle m now nx ny d s).currentSpeed = 1/10 := by
  simp only [resetVehicle]
  repeat' split
  all_goals first | rfl | rw [adjustDirection_currentSpeed]

lemma checkIfStuck_progress_cases (m : RoadMap) (now timeout : ℚ) (s : VehicleState) :
    (checkIfStuck m now timeout s).tileProgress = s.tileProgress ∨
    (checkIfStuck m now timeout s).tileProgress = 1/2 ∨
    (checkIfStuck m now timeout s).tileProgress = 0 := by
  simp only [checkIfStuck]
  repeat' split
  all_goals first
    | exact Or.inl rfl
    | exact Or.inr (Or.inl rfl)
    | exact Or.inr (Or.inr (by rw [resetVehicle_tileProgress]))

lemma checkIfStuck_speed_cases (m : RoadMap) (now timeout : ℚ) (s : VehicleState) :
    (checkIfStuck m now timeout s).currentSpeed = s.currentSpeed ∨
    (checkIfStuck m now timeout s).currentSpeed = 1/10 := by
  simp only [checkIfStuck]
  repeat' split
  all_goals first
    | exact Or.inl rfl
    | exact Or.inr (by rw [resetVehicle_currentSpeed])

lemma accelerationStep_speed_nonneg (s : VehicleState) (dt : ℚ)
    (h : 0 ≤ s.currentSpeed) (hdt : 0 ≤ dt) :
    0 ≤ (accelerationStep s dt).currentSpeed := by
  simp only [accelerationStep]
  split_ifs with h1 h2
  · norm_num [GameConfig.VEHICLE_SPEED]
  · exact add_nonneg h (mul_nonneg (by norm_num [GameConfig.VEHICLE_ACCELERATION]) hdt)
  · exact h

lemma checkIfStuck_inv (m : RoadMap) (now timeout : ℚ) (s : VehicleState)
    (h : s.Inv) : (checkIfStuck m now timeout s).Inv := by
  obtain ⟨a, b, c⟩ := h
  obtain hp | hp | hp := checkIfStuck_progress_cases m now timeout s <;>
    obtain hv | hv := checkIfStuck_speed_cases m now timeout s <;>
    exact ⟨by rw [hp] <;> first | exact a | norm_num,
      by rw [hp] <;> first | exact b | norm_num,
      by rw [hv] <;> first | exact c | norm_num⟩

lemma moveToNextTile_inv (m : RoadMap) (tls : Option (List IntersectionLights))
    (rnd : Nat) (s : VehicleState) (hv : 0 ≤ s.currentSpeed) :
    (moveToNextTile m tls rnd s).Inv := by
  have hspd := moveToNextTile_currentSpeed m tls rnd s
  obtain hp | hp := moveToNextTile_progress_cases m tls rnd s <;>
    exact ⟨by rw [hp] <;> norm_num [GameConfig.VEHICLE_STOP_POINT],
      by rw [hp] <;> norm_num [GameConfig.VEHICLE_STOP_POINT],
      by rw [hspd] <;> exact hv⟩

lemma updateMain_inv (m : RoadMap) (tls : Option (List IntersectionLights)) (rnd : Nat)
    (now dt : ℚ) (hdt : 0 ≤ dt) (s : VehicleState) (hinv : s.Inv) :
    (updateMain m tls rnd now dt s).Inv := by
  obtain ⟨hp0, hp1, hv0⟩ := hinv
  have h1p : (accelerationStep s dt).tileProgress = s.tileProgress :=
    accelerationStep_tileProgress s dt
  have h1v : 0 ≤ (accelerationStep s dt).currentSpeed :=
    accelerationStep_speed_nonneg s dt hv0 hdt
  by_cases hdec : s.isDecelerating = true
  · have h1d : (accelerationStep s dt).isDecelerating = true := by
      rw [accelerationStep_isDecelerating]; exact hdec
    simp only [updateMain, VehicleState.Inv, h1d, if_true, ge_iff_le]
    have hvmax : 0 ≤ max 0 ((accelerationStep s dt).currentSpeed -
        GameConfig.VEHICLE_DECELERATION *
          max 1 (3 - (GameConfig.VEHICLE_STOP_POINT -
            (accelerationStep s dt).tileProgress) * 10) * dt) :=
      le_max_left 0 _
    have hSPle : GameConfig.VEHICLE_STOP_POINT ≤ 1 := by
      norm_num [GameConfig.VEHICLE_STOP_POINT]
    split_ifs with hA hB hC hD
    · exact ⟨by norm_num [GameConfig.VEHICLE_STOP_POINT],
        by norm_num [GameConfig.VEHICLE_STOP_POINT], le_refl 0⟩
    · exact ⟨by norm_num [GameConfig.VEHICLE_STOP_POINT],
        by norm_num [GameConfig.VEHICLE_STOP_POINT], le_refl 0⟩
    · exact ⟨by rw [h1p]; exact hp0, by rw [h1p]; exact hp1, le_refl 0⟩
    · exact ⟨by norm_num [GameConfig.VEHICLE_STOP_POINT],
        by norm_num [GameConfig.VEHICLE_STOP_POINT], le_refl 0⟩
    · refine ⟨?_, ?_, ?_⟩
      · exact add_nonneg (by rw [h1p]; exact hp0) (mul_nonneg hvmax hdt)
      · push_neg at hD
        exact le_trans (le_of_lt hD) hSPle
      · exact hvmax
  · have hdec' : s.isDecelerating = false := by
      revert hdec; cases s.isDecelerating <;> simp
    rw [updateMain_normal m tls rnd now dt hdec']
    have h2p : 0 ≤ (checkForUpcomingRedLight m tls (accelerationStep s dt)).tileProgress ∧
        (checkForUpcomingRedLight m tls (accelerationStep s dt)).tileProgress ≤ 1 := by
      obtain h | h := checkRed_progress_cases m tls (accelerationStep s dt)
      · rw [h, h1p]; exact ⟨hp0, hp1⟩
      · rw [h]; norm_num [GameConfig.VEHICLE_STOP_POINT]
    have h2v : 0 ≤ (checkForUpcomingRedLight m tls (accelerationStep s dt)).currentSpeed := by
      obtain h | h := checkRed_speed_cases m tls (accelerationStep s dt)
      · rw [h]; exact h1v
      · rw [h]
    simp only [normalMove, ge_iff_le]
    split_ifs with hcross
    · exact checkIfStuck_inv _ _ _ _ (moveToNextTile_inv _ _ _ _ (by exact h2v))
    · refine checkIfStuck_inv _ _ _ _ ⟨?_, ?_, ?_⟩
      · exact add_nonneg h2p.1 (mul_nonneg h2v hdt)
      · push_neg at hcross
        exact le_of_lt hcross
      · exact h2v

lemma update_inv (m : RoadMap) (tls : Option (List IntersectionLights)) (rnd : Nat)
    (now dt : ℚ) (hdt : 0 ≤ dt) (s : VehicleState) (hinv : s.Inv) :
    (VehicleController.update m tls rnd now dt s).Inv := by
  obtain ⟨hp0, hp1, hv0⟩ := hinv
  cases tls with
  | none => exact updateMain_inv m none rnd now dt hdt s ⟨hp0, hp1, hv0⟩
  | some sys =>
    by_cases hstop : s.isStopped = true
    · cases hcan : TrafficLightSystem.canCrossIntersection sys s.nextIntersectionTileX
          s.nextIntersectionTileY s.currentDirection with
      | false =>
        rw [update_stopped_denied m sys rnd now dt hstop hcan]
        exact ⟨hp0, hp1, le_refl 0⟩
      | true =>
        rw [update_stopped_granted m sys rnd now dt hstop hcan]
        exact updateMain_inv m (some sys) rnd now dt hdt _ ⟨hp0, hp1, le_refl 0⟩
    · have hstop' : s.isStopped = false := by
        revert hstop; cases s.isStopped <;> simp
      rw [update_not_stopped m (some sys) rnd now dt hstop']
      exact updateMain_inv m (some sys) rnd now dt hdt s ⟨hp0, hp1, hv0⟩

end VehicleController

/-- Counterexample to C9 as stated: a freshly constructed vehicle (a reachable
state) has `currentSpeed = 0` while its kinematic mode is CRUISING, not
STOPPED — so "currentSpeed is 0 iff the mode is STOPPED" fails. -/
theorem construct_zero_speed_not_stopped :
    (VehicleController.construct 0 0 .east).currentSpeed = 0 ∧
    (VehicleController.construct 0 0 .east).isStopped = false :=
  ⟨rfl, rfl⟩

/-- C9 (amended): for every vehicle state reachable from construction through
`update` calls with non-negative deltas, `tileProgress` lies in `[0,1]` at the
end of every update and `currentSpeed` is non-negative.  The biconditional
between `currentSpeed = 0` and STOPPED does not hold on reachable states. -/
theorem vehicle_reachable_invariant (s : VehicleState) (h : ReachableVehicle s) :
    0 ≤ s.tileProgress ∧ s.tileProgress ≤ 1 ∧ 0 ≤ s.currentSpeed := by
  induction h with
  | init x y d => exact ⟨le_refl 0, by norm_num [VehicleController.construct], le_refl 0⟩
  | step s m tls rnd now dt hdt _ ih =>
    exact VehicleController.update_inv m tls rnd now dt hdt s ih

/-- Witness for C9 (amended): the invariant evaluated on a concrete reachable
state — one `update(1)` from a freshly constructed vehicle. -/
theorem vehicle_reachable_invariant_witness :
    0 ≤ (VehicleController.update crossMap (some sysNS) 0 0 1
      (VehicleController.construct 0 0 .east)).tileProgress ∧
    (VehicleController.update crossMap (some sysNS) 0 0 1
      (VehicleController.construct 0 0 .east)).tileProgress ≤ 1 ∧
    0 ≤ (VehicleController.update crossMap (some sysNS) 0 0 1
      (VehicleController.construct 0 0 .east)).currentSpeed :=
  vehicle_reachable_invariant _
    (ReachableVehicle.step _ crossMap (some sysNS) 0 0 1 (by norm_num)
      (ReachableVehicle.init 0 0 .east))

end TransitoCity
